import Mathlib

/-!
big-blog-frontend: role-gated routing and form validation.

A shallow embedding of the access-control logic of the blog front end:

* `ROLES` (utils/constants.js),
* `ProtectedRoute` and the route table of `App` (App.jsx),
* the role-dependent navigation of `Header` (components/Header.jsx),
* the hero actions of `Home` (pages/Home.jsx),
* `validateForm` / `handleSubmit` of `Login` (pages/Login.jsx) and of
  `Register` (pages/Register.jsx),
* `makeRequest` of the hook `useApi` (hooks/useApi.js),
* `handleLogout` of `Header`,
* the role modal and the users table of `AdminPanel` (pages/AdminPanel.jsx),
* `handleImageChange` of `CreatePost` and `EditPost`, and `fetchPost` of
  `EditPost` (pages/EditPost.jsx),
* `Pagination` (components/Pagination.jsx), with the arithmetic of `Number`
  on integers (exact up to `2^53`, rounded to the nearest double beyond) and
  its loop run on fuel, and the action block of `Comment`
  (components/Comment.jsx).

JavaScript strings are Lean strings; a string is truthy exactly when it is
non-empty; `null` / `undefined` are `none`.  The hook `useAuth` and the module
`utils/validation` are external to the embedded files, so the values they
provide (`user`, `loading`, `isAuthenticated`, `login`, `register`, the three
validators) are parameters of the definitions below; the session store, its
`logout` and its handling of a rejected credential are modelled from the
specification.  Handlers are embedded as
the sequence of their effects in program order, together with the state
update each effect performs.
-/

namespace BigBlog

/-! ## Data model -/

/-- The identity record supplied by `useAuth` (fields read by the components). -/
structure User where
  id : String
  name : String
  email : String
  role : String
  deriving DecidableEq, Repr

/-- ROLES.READER of utils/constants.js. -/
def ROLES.READER : String := "READER"

/-- ROLES.AUTHOR of utils/constants.js. -/
def ROLES.AUTHOR : String := "AUTHOR"

/-- ROLES.ADMIN of utils/constants.js. -/
def ROLES.ADMIN : String := "ADMIN"

/-- JavaScript truthiness of a string value: every string but the empty one. -/
def truthyStr (s : String) : Bool := s != ""

/-- JavaScript truthiness of an optional string prop (`undefined` is falsy). -/
def truthyProp : Option String → Bool
  | none => false
  | some s => truthyStr s

/-- Strict inequality `a !== b` between a string and an optional string prop. -/
def strictNe (a : String) : Option String → Bool
  | none => true
  | some b => a != b

/-! ## App.jsx -/

/-- The page components mounted by the route table. -/
inductive Page where
  | Home | Login | Register | PostDetail
  | Dashboard | CreatePost | AdminPanel | EditPost | Profile
  deriving DecidableEq, Repr

/-- What `ProtectedRoute` returns: the loading placeholder, a `Navigate`
element, or its `children`. -/
inductive Rendered (α : Type) where
  | loading : Rendered α
  | navigate (target : String) : Rendered α
  | children (c : α) : Rendered α
  deriving DecidableEq, Repr

/-- The component `ProtectedRoute` of App.jsx.  `user` and `loading` are the
values read from `useAuth()`; `requiredRole` is `none` when the prop is absent. -/
def ProtectedRoute {α : Type} (user : Option User) (loading : Bool)
    (requiredRole : Option String) (children : α) : Rendered α :=
  if loading then
    Rendered.loading
  else
    match user with
    | none => Rendered.navigate "/login"
    | some u =>
      if truthyProp requiredRole && strictNe u.role requiredRole && (u.role != "ADMIN") then
        Rendered.navigate "/"
      else
        Rendered.children children

/-- The `element` prop of a `Route`: a page mounted directly, or a page
wrapped in `ProtectedRoute` with its (possibly absent) `requiredRole` prop. -/
inductive RouteElement where
  | direct (page : Page) : RouteElement
  | guarded (requiredRole : Option String) (page : Page) : RouteElement
  deriving DecidableEq, Repr

/-- One `Route` entry of `App`. -/
structure Route where
  path : String
  element : RouteElement
  deriving DecidableEq, Repr

/-- The `Routes` table of `App`, in source order. -/
def App.routes : List Route :=
  [ ⟨"/", RouteElement.direct Page.Home⟩,
    ⟨"/login", RouteElement.direct Page.Login⟩,
    ⟨"/register", RouteElement.direct Page.Register⟩,
    ⟨"/post/:id", RouteElement.direct Page.PostDetail⟩,
    ⟨"/dashboard", RouteElement.guarded (some "AUTHOR") Page.Dashboard⟩,
    ⟨"/create-post", RouteElement.guarded (some "AUTHOR") Page.CreatePost⟩,
    ⟨"/admin", RouteElement.guarded (some "ADMIN") Page.AdminPanel⟩,
    ⟨"/edit-post/:id", RouteElement.guarded (some "AUTHOR") Page.EditPost⟩,
    ⟨"/profile", RouteElement.guarded none Page.Profile⟩ ]

/-- Rendering of a route element under the session `(user, loading)`. -/
def RouteElement.render (user : Option User) (loading : Bool) : RouteElement → Rendered Page
  | RouteElement.direct page => Rendered.children page
  | RouteElement.guarded requiredRole page => ProtectedRoute user loading requiredRole page

/-- The element registered in `App.routes` under a path pattern. -/
def App.elementAt (path : String) : Option RouteElement :=
  (App.routes.find? (fun r => r.path == path)).map Route.element

/-- What `App` renders for a route path pattern under the session
`(user, loading)`; `none` when the table has no such route. -/
def App.render (user : Option User) (loading : Bool) (path : String) : Option (Rendered Page) :=
  (App.elementAt path).map (RouteElement.render user loading)

/-- The path patterns of the routes whose element is a `ProtectedRoute`. -/
def App.guardedPaths : List String :=
  (App.routes.filter (fun r =>
    match r.element with
    | RouteElement.guarded _ _ => true
    | RouteElement.direct _ => false)).map Route.path

/-- The path patterns of the routes mounted without `ProtectedRoute`. -/
def App.directPaths : List String :=
  (App.routes.filter (fun r =>
    match r.element with
    | RouteElement.guarded _ _ => false
    | RouteElement.direct _ => true)).map Route.path

/-! ## components/Header.jsx and pages/Home.jsx -/

/-- The interactive items a navigation block renders: a `Link` with its
target and text, or a `button` with its text. -/
inductive NavItem where
  | link (target : String) (text : String) : NavItem
  | button (text : String) : NavItem
  deriving DecidableEq, Repr

/-- Conditional rendering `cond && item` inside a fragment. -/
def renderIf (cond : Bool) (item : NavItem) : List NavItem :=
  if cond then [item] else []

/-- The desktop navigation of `Header`.  `none` stands for the TypeError
raised by reading `user.role` when `isAuthenticated` is truthy but `user` is
null. -/
def Header.desktopNav (isAuthenticated : Bool) (user : Option User) : Option (List NavItem) :=
  if isAuthenticated then
    match user with
    | none => none
    | some u =>
      some ([NavItem.link "/" "Home"]
        ++ renderIf (u.role == ROLES.AUTHOR || u.role == ROLES.ADMIN)
            (NavItem.link "/dashboard" "Dashboard")
        ++ renderIf (u.role == ROLES.ADMIN) (NavItem.link "/admin" "Admin")
        ++ [NavItem.link "/profile" "Profile", NavItem.button "Logout"])
  else
    some [NavItem.link "/" "Home", NavItem.link "/login" "Login",
      NavItem.link "/register" "Register"]

/-- The mobile navigation of `Header`; `none` as in `Header.desktopNav`. -/
def Header.mobileNav (isAuthenticated : Bool) (user : Option User) : Option (List NavItem) :=
  if isAuthenticated then
    match user with
    | none => none
    | some u =>
      some ([NavItem.link "/" "Home"]
        ++ renderIf (u.role == ROLES.AUTHOR || u.role == ROLES.ADMIN)
            (NavItem.link "/dashboard" "Dashboard")
        ++ renderIf (u.role == ROLES.ADMIN) (NavItem.link "/admin" "Admin Panel")
        ++ [NavItem.link "/profile" "Profile", NavItem.button "Logout"])
  else
    some [NavItem.link "/" "Home", NavItem.link "/login" "Login",
      NavItem.link "/register" "Register"]

/-- The `hero-actions` block of `Home`; `none` as in `Header.desktopNav`. -/
def Home.heroActions (isAuthenticated : Bool) (user : Option User) : Option (List NavItem) :=
  if isAuthenticated then
    match user with
    | none => none
    | some u =>
      some (renderIf (u.role == "AUTHOR" || u.role == "ADMIN")
            (NavItem.link "/create-post" "Write a Post")
        ++ [NavItem.link "/dashboard" "My Dashboard"])
  else
    some [NavItem.link "/register" "Join Our Community", NavItem.link "/login" "Sign In"]

/-- Whether an item is a `Link` to the given target. -/
def NavItem.linksTo (target : String) : NavItem → Bool
  | NavItem.link t _ => t == target
  | NavItem.button _ => false

/-- Whether a rendered block offers a `Link` to the given target. -/
def offersLink (block : Option (List NavItem)) (target : String) : Bool :=
  match block with
  | none => false
  | some items => items.any (NavItem.linksTo target)

/-! ## pages/Login.jsx -/

namespace Login

/-- The `formData` state of `Login`. -/
structure FormData where
  email : String
  password : String
  deriving DecidableEq, Repr

/-- The `errors` state object of `Login`; a field is `none` when the key is
not present in the object. -/
structure Errors where
  email : Option String
  password : Option String
  submit : Option String
  deriving DecidableEq, Repr

/-- The empty object. -/
def Errors.empty : Errors := ⟨none, none, none⟩

/-- The value of `Object.keys(errors).length`. -/
def Errors.keyCount (e : Errors) : Nat :=
  (if e.email.isSome then 1 else 0) + (if e.password.isSome then 1 else 0)
    + (if e.submit.isSome then 1 else 0)

/-- The value `login` resolves to, as read by `handleSubmit`. -/
structure LoginResult where
  success : Bool
  error : String
  deriving DecidableEq, Repr

/-- The observable steps of `handleSubmit`, in program order. -/
inductive Effect where
  | preventDefault : Effect
  | setErrors (e : Errors) : Effect
  | setIsSubmitting (b : Bool) : Effect
  | login (email : String) (password : String) : Effect
  deriving DecidableEq, Repr

/-- The component state of `Login`. -/
structure State where
  formData : FormData
  errors : Errors
  isSubmitting : Bool
  deriving DecidableEq, Repr

/-- The function `validateForm`: the object handed to `setErrors` and the
returned boolean.  `validateEmail` is the imported validator. -/
def validateForm (validateEmail : String → Bool) (formData : FormData) : Errors × Bool :=
  let newErrors := Errors.empty
  let newErrors :=
    if !truthyStr formData.email then
      { newErrors with email := some "Email is required" }
    else if !validateEmail formData.email then
      { newErrors with email := some "Please enter a valid email" }
    else newErrors
  let newErrors :=
    if !truthyStr formData.password then
      { newErrors with password := some "Password is required" }
    else newErrors
  (newErrors, newErrors.keyCount == 0)

/-- The handler `handleSubmit`, as the sequence of its effects.  `login` is
the function obtained from `useAuth`, given by the result it resolves to. -/
def handleSubmit (validateEmail : String → Bool) (login : String → String → LoginResult)
    (formData : FormData) : List Effect :=
  let v := validateForm validateEmail formData
  [Effect.preventDefault, Effect.setErrors v.1] ++
    (if !v.2 then []
     else
      let result := login formData.email formData.password
      [Effect.setIsSubmitting true, Effect.login formData.email formData.password]
        ++ (if !result.success then [Effect.setErrors ⟨none, none, some result.error⟩] else [])
        ++ [Effect.setIsSubmitting false])

/-- The state update performed by one effect. -/
def Effect.apply (s : State) : Effect → State
  | Effect.preventDefault => s
  | Effect.setErrors e => { s with errors := e }
  | Effect.setIsSubmitting b => { s with isSubmitting := b }
  | Effect.login _ _ => s

/-- The component state after a sequence of effects. -/
def run (s : State) (effects : List Effect) : State :=
  effects.foldl Effect.apply s

end Login

/-! ## pages/Register.jsx -/

namespace Register

/-- The `formData` state of `Register`. -/
structure FormData where
  name : String
  email : String
  password : String
  confirmPassword : String
  deriving DecidableEq, Repr

/-- The `errors` state object of `Register`; a field is `none` when the key
is not present in the object. -/
structure Errors where
  name : Option String
  email : Option String
  password : Option String
  confirmPassword : Option String
  submit : Option String
  deriving DecidableEq, Repr

/-- The empty object. -/
def Errors.empty : Errors := ⟨none, none, none, none, none⟩

/-- The value of `Object.keys(errors).length`. -/
def Errors.keyCount (e : Errors) : Nat :=
  (if e.name.isSome then 1 else 0) + (if e.email.isSome then 1 else 0)
    + (if e.password.isSome then 1 else 0) + (if e.confirmPassword.isSome then 1 else 0)
    + (if e.submit.isSome then 1 else 0)

/-- The value `register` resolves to, as read by `handleSubmit`. -/
structure RegisterResult where
  success : Bool
  error : String
  deriving DecidableEq, Repr

/-- The observable steps of `handleSubmit`, in program order. -/
inductive Effect where
  | preventDefault : Effect
  | setErrors (e : Errors) : Effect
  | setIsSubmitting (b : Bool) : Effect
  | register (email : String) (password : String) (name : String) : Effect
  deriving DecidableEq, Repr

/-- The component state of `Register`. -/
structure State where
  formData : FormData
  errors : Errors
  isSubmitting : Bool
  deriving DecidableEq, Repr

/-- The function `validateForm`: the object handed to `setErrors` and the
returned boolean.  The three validators are the imported ones. -/
def validateForm (validateName validateEmail validatePassword : String → Bool)
    (formData : FormData) : Errors × Bool :=
  let newErrors := Errors.empty
  let newErrors :=
    if !truthyStr formData.name then
      { newErrors with name := some "Name is required" }
    else if !validateName formData.name then
      { newErrors with name := some "Name must be at least 2 characters long" }
    else newErrors
  let newErrors :=
    if !truthyStr formData.email then
      { newErrors with email := some "Email is required" }
    else if !validateEmail formData.email then
      { newErrors with email := some "Please enter a valid email" }
    else newErrors
  let newErrors :=
    if !truthyStr formData.password then
      { newErrors with password := some "Password is required" }
    else if !validatePassword formData.password then
      { newErrors with password := some "Password must be at least 6 characters long" }
    else newErrors
  let newErrors :=
    if !truthyStr formData.confirmPassword then
      { newErrors with confirmPassword := some "Please confirm your password" }
    else if formData.password != formData.confirmPassword then
      { newErrors with confirmPassword := some "Passwords do not match" }
    else newErrors
  (newErrors, newErrors.keyCount == 0)

/-- The handler `handleSubmit`, as the sequence of its effects.  `register`
is the function obtained from `useAuth`, given by the result it resolves to. -/
def handleSubmit (validateName validateEmail validatePassword : String → Bool)
    (register : String → String → String → RegisterResult)
    (formData : FormData) : List Effect :=
  let v := validateForm validateName validateEmail validatePassword formData
  [Effect.preventDefault, Effect.setErrors v.1] ++
    (if !v.2 then []
     else
      let result := register formData.email formData.password formData.name
      [Effect.setIsSubmitting true,
        Effect.register formData.email formData.password formData.name]
        ++ (if !result.success then
              [Effect.setErrors ⟨none, none, none, none, some result.error⟩]
            else [])
        ++ [Effect.setIsSubmitting false])

/-- The state update performed by one effect. -/
def Effect.apply (s : State) : Effect → State
  | Effect.preventDefault => s
  | Effect.setErrors e => { s with errors := e }
  | Effect.setIsSubmitting b => { s with isSubmitting := b }
  | Effect.register _ _ _ => s

/-- The component state after a sequence of effects. -/
def run (s : State) (effects : List Effect) : State :=
  effects.foldl Effect.apply s

end Register

/-! ## utils/constants.js (API_BASE_URL) and hooks/useApi.js -/

/-- `API_BASE_URL`: the environment value `VITE_API_URL` when truthy, else
the local default. -/
def API_BASE_URL (VITE_API_URL : Option String) : String :=
  match VITE_API_URL with
  | some v => if truthyStr v then v else "http://localhost:5000/api"
  | none => "http://localhost:5000/api"

/-- The JavaScript values passed as request payloads: `null`, primitives, and
objects (given by their string-valued entries). -/
inductive JsValue where
  | null : JsValue
  | bool (b : Bool) : JsValue
  | num (n : Int) : JsValue
  | str (s : String) : JsValue
  | obj (entries : List (String × String)) : JsValue
  deriving DecidableEq, Repr

/-- JavaScript truthiness: `null`, `false`, `0` and `""` are falsy; every
object is truthy. -/
def JsValue.truthy : JsValue → Bool
  | JsValue.null => false
  | JsValue.bool b => b
  | JsValue.num n => n != 0
  | JsValue.str s => truthyStr s
  | JsValue.obj _ => true

/-- The value of `s.toLowerCase()`, on the letters A to Z.  Letters outside
that range are left as they are; none of them lowercases to a letter of
"get", so the comparison made by `makeRequest` is the same. -/
def toLowerCase (s : String) : String := String.mk (s.toList.map Char.toLower)

/-- The value of `a || b` for an optional string `a` and a string `b`. -/
def orElse (a : Option String) (b : String) : String :=
  match a with
  | some s => if truthyStr s then s else b
  | none => b

namespace useApi

/-- The `options` argument of `makeRequest`: the keys that end up in the
axios config (a key is `none` when absent from the object). -/
structure Options where
  method : Option String
  url : Option String
  params : Option JsValue
  data : Option JsValue
  headers : Option JsValue
  deriving DecidableEq, Repr

/-- The default `options = {}`. -/
def Options.empty : Options := ⟨none, none, none, none, none⟩

/-- The `config` object handed to `axios`. -/
structure Config where
  method : String
  url : String
  params : Option JsValue
  data : Option JsValue
  headers : Option JsValue
  deriving DecidableEq, Repr

/-- The body of an error response, as far as `makeRequest` reads it. -/
structure ErrorData where
  error : Option String
  deriving DecidableEq, Repr

/-- The `response` of a rejected request: HTTP status and body. -/
structure ErrorResponse where
  status : Nat
  data : Option ErrorData
  deriving DecidableEq, Repr

/-- The value `axios` rejects with; `response` is absent for transport
failures. -/
structure AxiosError where
  response : Option ErrorResponse
  message : Option String
  deriving DecidableEq, Repr

/-- How the awaited `axios(config)` settles: a response carrying `data`, or a
rejection. -/
inductive AxiosResult (δ : Type) where
  | resolved (data : δ) : AxiosResult δ
  | rejected (err : AxiosError) : AxiosResult δ
  deriving DecidableEq, Repr

/-- The state of the hook: `loading` and `error`. -/
structure HookState where
  loading : Bool
  error : Option String
  deriving DecidableEq, Repr

/-- The initial state `useState(false)`, `useState(null)`. -/
def HookState.initial : HookState := ⟨false, none⟩

/-- The observable steps of `makeRequest`, in program order. -/
inductive Effect where
  | setLoading (b : Bool) : Effect
  | setError (e : Option String) : Effect
  | axios (config : Config) : Effect
  deriving DecidableEq, Repr

/-- How `makeRequest` completes: it returns `response.data` or throws an
`Error` with a message. -/
inductive Outcome (δ : Type) where
  | returned (data : δ) : Outcome δ
  | thrown (message : String) : Outcome δ
  deriving DecidableEq, Repr

/-- The `config` object built in the `try` block of `makeRequest`:
`{ method, url, ...options }`, then `params` or `data` set from a truthy
`data` argument. -/
def requestConfig (apiBaseUrl : String) (method endpoint : String) (data : JsValue)
    (options : Options) : Config :=
  let url := apiBaseUrl ++ endpoint
  let config : Config :=
    { method := match options.method with
        | some m => m
        | none => method,
      url := match options.url with
        | some u => u
        | none => url,
      params := options.params,
      data := options.data,
      headers := options.headers }
  if data.truthy then
    if toLowerCase method == "get" then { config with params := some data }
    else { config with data := some data }
  else config

/-- The message computed in the `catch` block:
`err.response?.data?.error || err.message || 'Something went wrong'`. -/
def errorMessage (err : AxiosError) : String :=
  orElse ((err.response.bind ErrorResponse.data).bind ErrorData.error)
    (orElse err.message "Something went wrong")

/-- The function `makeRequest`: its effects in program order and how it
completes.  `axios` is the imported client, given by how each request
settles. -/
def makeRequest {δ : Type} (apiBaseUrl : String) (axios : Config → AxiosResult δ)
    (method endpoint : String) (data : JsValue) (options : Options) :
    List Effect × Outcome δ :=
  let config := requestConfig apiBaseUrl method endpoint data options
  match axios config with
  | AxiosResult.resolved d =>
    ([Effect.setLoading true, Effect.setError none, Effect.axios config,
      Effect.setLoading false], Outcome.returned d)
  | AxiosResult.rejected err =>
    ([Effect.setLoading true, Effect.setError none, Effect.axios config,
      Effect.setError (some (errorMessage err)), Effect.setLoading false],
     Outcome.thrown (errorMessage err))

/-- The update of the hook state performed by one effect. -/
def Effect.apply (s : HookState) : Effect → HookState
  | Effect.setLoading b => { s with loading := b }
  | Effect.setError e => { s with error := e }
  | Effect.axios _ => s

/-- The hook state after a sequence of effects. -/
def run (s : HookState) (effects : List Effect) : HookState :=
  effects.foldl Effect.apply s

/-- One completed call of `makeRequest`: its arguments and how the request
settled. -/
structure Call (δ : Type) where
  method : String
  endpoint : String
  data : JsValue
  options : Options
  settled : AxiosResult δ

/-- Whether the request of a call was rejected. -/
def Call.failed {δ : Type} (c : Call δ) : Bool :=
  match c.settled with
  | AxiosResult.resolved _ => false
  | AxiosResult.rejected _ => true

/-- The hook state after a sequence of completed, non-overlapping calls. -/
def runCalls {δ : Type} (apiBaseUrl : String) (s : HookState) (calls : List (Call δ)) :
    HookState :=
  calls.foldl (fun st c =>
    run st (makeRequest apiBaseUrl (fun _ => c.settled) c.method c.endpoint c.data
      c.options).1) s

end useApi

/-! ## The session store (hooks/useAuth) and `Header.handleLogout` -/

/-- Modelled from the spec: the Session value held by the session store of
hooks/useAuth, which is not among the embedded sources.  A tagged union of
Loading, Anonymous and Authenticated (identity, credential). -/
inductive Session where
  | Loading : Session
  | Anonymous : Session
  | Authenticated (identity : User) (credential : String) : Session
  deriving DecidableEq, Repr

/-- Modelled from the spec: the session store of hooks/useAuth, holding the
in-memory Session and the credential persisted in client storage. -/
structure SessionStore where
  session : Session
  storedCredential : Option String
  deriving DecidableEq, Repr

/-- Modelled from the spec: the operation `logout()` of hooks/useAuth, which
is not among the embedded sources.  It clears the persisted credential and
moves the Session to Anonymous unconditionally; the optional server-side
invalidation call does not block it, and its success (here: whether the
network is reachable) is only reported back. -/
def logout (networkReachable : Bool) (_store : SessionStore) : SessionStore × Bool :=
  (⟨Session.Anonymous, none⟩, networkReachable)

namespace Header

/-- What `handleLogout` acts on: the session store, the router location and
the `isMobileMenuOpen` state of `Header`. -/
structure State where
  store : SessionStore
  location : String
  isMobileMenuOpen : Bool
  deriving DecidableEq, Repr

/-- The statements of `handleLogout`. -/
inductive Effect where
  | logout : Effect
  | navigate (target : String) : Effect
  | setIsMobileMenuOpen (b : Bool) : Effect
  deriving DecidableEq, Repr

/-- The handler `handleLogout`: `logout(); navigate('/');
setIsMobileMenuOpen(false);`, three statements with no branch on, and no use
of, the value of `logout()`. -/
def handleLogout : List Effect :=
  [Effect.logout, Effect.navigate "/", Effect.setIsMobileMenuOpen false]

/-- The state update performed by one statement; `logoutFn` is the `logout`
obtained from `useAuth`, whose returned value is discarded. -/
def Effect.apply {ρ : Type} (logoutFn : SessionStore → SessionStore × ρ) (s : State) :
    Effect → State
  | Effect.logout => { s with store := (logoutFn s.store).1 }
  | Effect.navigate target => { s with location := target }
  | Effect.setIsMobileMenuOpen b => { s with isMobileMenuOpen := b }

/-- The state after a sequence of statements. -/
def run {ρ : Type} (logoutFn : SessionStore → SessionStore × ρ) (s : State)
    (effects : List Effect) : State :=
  effects.foldl (Effect.apply logoutFn) s

end Header

/-- The HTTP status with which a request was rejected, when the rejection
carries a response. -/
def useApi.AxiosResult.rejectedStatus {δ : Type} : useApi.AxiosResult δ → Option Nat
  | useApi.AxiosResult.resolved _ => none
  | useApi.AxiosResult.rejected err => err.response.map useApi.ErrorResponse.status

/-- Modelled from the spec: the credential-invalidation event of the session
store (hooks/useAuth, which is not among the embedded sources), sections 4.1
and 7: a 401-equivalent response to any API call moves an Authenticated
session to Anonymous and clears the persisted credential, whichever operation
issued the call; any other response leaves the store as it is.  The second
component is the number of session transitions made. -/
def SessionStore.onResponse (store : SessionStore) (status : Option Nat) :
    SessionStore × Nat :=
  match store.session with
  | Session.Authenticated _ _ =>
    if status = some 401 then (⟨Session.Anonymous, none⟩, 1) else (store, 0)
  | _ => (store, 0)

/-- The client state an API call runs in: the session store, the number of
session transitions made so far, and the state of the `useApi` hook. -/
structure ClientState where
  store : SessionStore
  transitions : Nat
  api : useApi.HookState
  deriving DecidableEq, Repr

/-- Modelled from the spec: how one step of `makeRequest` acts on the client
state.  `setLoading` and `setError` update the hook state as in `useApi`; the
axios call goes through the shared client, where the session store of
hooks/useAuth (not among the embedded sources) handles the response status
centrally (`SessionStore.onResponse`).  `axios` gives how each request
settles. -/
def ClientState.step {δ : Type} (axios : useApi.Config → useApi.AxiosResult δ)
    (c : ClientState) : useApi.Effect → ClientState
  | useApi.Effect.axios config =>
    { c with
      store := (SessionStore.onResponse c.store (axios config).rejectedStatus).1,
      transitions :=
        c.transitions + (SessionStore.onResponse c.store (axios config).rejectedStatus).2 }
  | useApi.Effect.setLoading b =>
    { c with api := useApi.Effect.apply c.api (useApi.Effect.setLoading b) }
  | useApi.Effect.setError e =>
    { c with api := useApi.Effect.apply c.api (useApi.Effect.setError e) }

/-- The client state after `makeRequest` has run its steps. -/
def ClientState.afterRequest {δ : Type} (axios : useApi.Config → useApi.AxiosResult δ)
    (c : ClientState) (effects : List useApi.Effect) : ClientState :=
  effects.foldl (ClientState.step axios) c

/-! ## pages/AdminPanel.jsx -/

/-- The entries of the `ROLES` object of utils/constants.js, in source order. -/
def ROLES.entries : List (String × String) :=
  [("READER", ROLES.READER), ("AUTHOR", ROLES.AUTHOR), ("ADMIN", ROLES.ADMIN)]

/-- The value of `Object.values(ROLES)`. -/
def ROLES.values : List String := ROLES.entries.map Prod.snd

namespace AdminPanel

/-- The arguments of a `makeRequest` call issued by a handler. -/
structure ApiRequest where
  method : String
  endpoint : String
  data : JsValue
  deriving DecidableEq, Repr

/-- The request issued by `handleRoleUpdate(userId, newRole)`:
`makeRequest("patch", "/users/" + userId + "/role", { role: newRole })`. -/
def handleRoleUpdate (userId newRole : String) : ApiRequest :=
  ⟨"patch", "/users/" ++ userId ++ "/role", JsValue.obj [("role", newRole)]⟩

/-- One button of the `role-buttons` block of the role modal. -/
structure RoleButton where
  role : String
  disabled : Bool
  onClick : ApiRequest
  deriving DecidableEq, Repr

/-- The `role-buttons` block: one button per value of `ROLES`, rendered only
when `selectedUser` is non-null. -/
def roleButtons (selectedUser : Option User) : List RoleButton :=
  match selectedUser with
  | none => []
  | some su =>
    ROLES.values.map (fun role =>
      { role := role, disabled := su.role == role, onClick := handleRoleUpdate su.id role })

/-- The role-update requests the modal can issue: the `onClick` of its
enabled buttons. -/
def issuableRoleUpdates (selectedUser : Option User) : List ApiRequest :=
  ((roleButtons selectedUser).filter (fun b => !b.disabled)).map RoleButton.onClick

/-- The Delete button of a row of the users table: its `disabled` prop and
the arguments its `onClick` passes to `handleDeleteUser`. -/
structure DeleteButton where
  disabled : Bool
  onClick : String × String × String
  deriving DecidableEq, Repr

set_option linter.unusedVariables false in
/-- The Delete button rendered inside `users.map((user) => ...)`.  Inside
the callback the row parameter `user` shadows the `user` read from `useAuth`,
so the prop `disabled={user.id === user.id}` compares the row with itself. -/
def usersTableDeleteButton (currentUser : Option User) (user : User) : DeleteButton :=
  { disabled := user.id == user.id, onClick := (user.id, user.name, user.email) }

/-- The `disabled` prop of the Delete button in the fragment that follows the
comment "And update the delete button in the users table" (lines 105-113):
`user.id === currentUser?.id`. -/
def documentedDeleteDisabled (currentUser : Option User) (user : User) : Bool :=
  match currentUser with
  | none => false
  | some cu => user.id == cu.id

end AdminPanel

/-! ## pages/CreatePost.jsx and pages/EditPost.jsx: image selection -/

/-- A `File` taken from the file input: name, MIME type and size in bytes. -/
structure File where
  name : String
  type : String
  size : Nat
  deriving DecidableEq, Repr

/-- The value of `s.startsWith(p)`. -/
def startsWith (s p : String) : Bool := p.toList.isPrefixOf s.toList

/-- Lookup `o[key]` in an object given by its entries. -/
def objGet (o : List (String × String)) (key : String) : Option String :=
  (o.find? (fun kv => kv.1 == key)).map Prod.snd

/-- The object `{ ...o, [key]: value }`. -/
def objSet (o : List (String × String)) (key value : String) : List (String × String) :=
  if o.any (fun kv => kv.1 == key) then
    o.map (fun kv => if kv.1 == key then (kv.1, value) else kv)
  else o ++ [(key, value)]

namespace CreatePost

/-- The part of the state of `CreatePost` that `handleImageChange` acts on. -/
structure ImageState where
  image : Option File
  imagePreview : Option String
  errors : List (String × String)
  deriving DecidableEq, Repr

/-- The handler `handleImageChange` for the selected file `e.target.files[0]`
(`none` when the selection is empty).  `readAsDataURL` gives the data URL the
`FileReader` delivers to its `onload` callback. -/
def handleImageChange (readAsDataURL : File → String) (file : Option File)
    (s : ImageState) : ImageState :=
  match file with
  | none => s
  | some f =>
    if !startsWith f.type "image/" then
      { s with errors := objSet s.errors "image" "Please select an image file" }
    else if f.size > 5 * 1024 * 1024 then
      { s with errors := objSet s.errors "image" "Image must be smaller than 5MB" }
    else
      { image := some f,
        errors := objSet s.errors "image" "",
        imagePreview := some (readAsDataURL f) }

end CreatePost

namespace EditPost

/-- The part of the state of `EditPost` that `handleImageChange` acts on. -/
structure ImageState where
  image : Option File
  imagePreview : Option String
  currentImageUrl : Option String
  errors : List (String × String)
  deriving DecidableEq, Repr

/-- The handler `handleImageChange` of `EditPost`, as in `CreatePost`. -/
def handleImageChange (readAsDataURL : File → String) (file : Option File)
    (s : ImageState) : ImageState :=
  match file with
  | none => s
  | some f =>
    if !startsWith f.type "image/" then
      { s with errors := objSet s.errors "image" "Please select an image file" }
    else if f.size > 5 * 1024 * 1024 then
      { s with errors := objSet s.errors "image" "Image must be smaller than 5MB" }
    else
      { s with
        image := some f,
        errors := objSet s.errors "image" "",
        imagePreview := some (readAsDataURL f) }

end EditPost

/-! ## components/Pagination.jsx -/

namespace Pagination

/-- `Number.MAX_SAFE_INTEGER`, that is `2^53 - 1`: up to this magnitude every
integer is a `Number` and integer arithmetic is exact. -/
def maxSafeInteger : Int := 9007199254740991

/-- The integer held by a `Number` after an operation whose exact result is
the natural number `a`: the nearest double, ties to the even significand.
Below `2^53` that is `a` itself; from there on doubles are `2^(size a - 53)`
apart (`size a` is the number of binary digits of `a`).  Magnitudes stay
below `2^1024` in every computation of the component on finite arguments, so
overflow to `Infinity` does not arise. -/
def roundNat (a : Nat) : Nat :=
  if a < 2 ^ 53 then a
  else
    let q := 2 ^ (a.size - 53)
    let lower := a / q * q
    let r := a % q
    if 2 * r < q then lower
    else if q < 2 * r then lower + q
    else if (a / q) % 2 = 0 then lower
    else lower + q

/-- Rounding of an exact integer result to the nearest double, symmetric in
the sign. -/
def roundToDouble (n : Int) : Int :=
  if n < 0 then -((roundNat n.natAbs : Nat) : Int) else ((roundNat n.natAbs : Nat) : Int)

/-- The value of `a + b` on integer-valued `Number`s. -/
def add (a b : Int) : Int := roundToDouble (a + b)

/-- The value of `a - b` on integer-valued `Number`s. -/
def sub (a b : Int) : Int := roundToDouble (a - b)

/-- The constant `maxVisiblePages`. -/
def maxVisiblePages : Int := 5

/-- The first value of `startPage`:
`Math.max(1, current - Math.floor(maxVisiblePages / 2))`. -/
def initialStartPage (current : Int) : Int :=
  max 1 (sub current (maxVisiblePages / 2))

/-- The value of `endPage`:
`Math.min(total, startPage + maxVisiblePages - 1)`, computed from the first
value of `startPage`; it is not reassigned afterwards. -/
def endPage (current total : Int) : Int :=
  min total (sub (add (initialStartPage current) maxVisiblePages) 1)

/-- The final value of `startPage`: the first value, moved back to
`Math.max(1, endPage - maxVisiblePages + 1)` when
`endPage - startPage + 1 < maxVisiblePages`. -/
def startPage (current total : Int) : Int :=
  if add (sub (endPage current total) (initialStartPage current)) 1 < maxVisiblePages then
    max 1 (add (sub (endPage current total) maxVisiblePages) 1)
  else initialStartPage current

/-- The loop `for (let i = startPage; i <= endPage; i++) pages.push(i)`, run
for at most `fuel` iterations from the counter `i` and the array `pages`;
`none` when the loop is still running after that many iterations. -/
def loop (endPage : Int) : Nat → Int → List Int → Option (List Int)
  | 0, i, pages => if i ≤ endPage then none else some pages
  | fuel + 1, i, pages =>
    if i ≤ endPage then loop endPage fuel (add i 1) (pages ++ [i]) else some pages

/-- The array `pages` once the loop has ended; `none` when it has not ended
within `fuel` iterations. -/
def pages (fuel : Nat) (current total : Int) : Option (List Int) :=
  loop (endPage current total) fuel (startPage current total) []

/-- A rendered button: its text, `className`, `disabled` prop and the page
its `onClick` passes to `onPageChange`. -/
structure Button where
  text : String
  className : String
  disabled : Bool
  onClick : Int
  deriving DecidableEq, Repr

/-- The numbered button of a page. -/
def pageButton (current page : Int) : Button :=
  { text := toString page,
    className := "pagination-btn " ++ (if current == page then "active" else ""),
    disabled := false,
    onClick := page }

/-- The elements returned for a non-empty array `pages`: Previous, the
numbered buttons and Next. -/
def controls (current total : Int) (pages : List Int) : List Button :=
  [{ text := "Previous", className := "pagination-btn",
     disabled := current == 1, onClick := sub current 1 }]
    ++ pages.map (pageButton current)
    ++ [{ text := "Next", className := "pagination-btn",
          disabled := current == total, onClick := add current 1 }]

/-- The component `Pagination`: the outer `none` when the loop has not ended
within `fuel` iterations; otherwise `none` for the returned `null`, or the
returned buttons. -/
def render (fuel : Nat) (current total : Int) : Option (Option (List Button)) :=
  (pages fuel current total).map (fun ps =>
    if ps.length == 0 then none else some (controls current total ps))

end Pagination

/-! ## components/Comment.jsx -/

namespace Comment

/-- The fields of the `comment` prop read by the action logic. -/
structure CommentData where
  id : String
  authorId : String
  content : String
  approved : Bool
  deriving DecidableEq, Repr

/-- The value `canModify` (as a boolean):
`user && (user.id === comment.authorId || user.role === 'ADMIN')`. -/
def canModify (user : Option User) (comment : CommentData) : Bool :=
  match user with
  | none => false
  | some u => u.id == comment.authorId || u.role == "ADMIN"

/-- The `comment-actions` block: the Edit and Delete buttons, rendered under
`showActions && canModify`. -/
def actions (user : Option User) (comment : CommentData) (showActions : Bool) : List NavItem :=
  if showActions && canModify user comment then
    [NavItem.button "Edit", NavItem.button "Delete"]
  else []

end Comment

/-! ## pages/EditPost.jsx: loading the post -/

namespace EditPost

/-- The fields of `data.post` read by `fetchPost`. -/
structure Post where
  authorId : String
  title : String
  content : String
  excerpt : Option String
  tags : Option (List String)
  published : Bool
  image : Option String
  deriving DecidableEq, Repr

/-- The value `makeRequest` returns for `GET /posts/:id`; `post` is `none`
when the response carries no post. -/
structure PostResponse where
  post : Option Post
  deriving DecidableEq, Repr

/-- The `formData` state of `EditPost`. -/
structure FormData where
  title : String
  content : String
  excerpt : String
  tags : String
  published : Bool
  deriving DecidableEq, Repr

/-- The part of the state of `EditPost` that `fetchPost` acts on, with the
router location. -/
structure PageState where
  formData : FormData
  currentImageUrl : Option String
  imagePreview : Option String
  isLoading : Bool
  location : String
  deriving DecidableEq, Repr

/-- The initial `useState` values, at the location of the edit route. -/
def PageState.initial (location : String) : PageState :=
  { formData := ⟨"", "", "", "", false⟩, currentImageUrl := none, imagePreview := none,
    isLoading := true, location := location }

/-- The observable steps of `fetchPost`, in program order. -/
inductive Effect where
  | makeRequest (method : String) (endpoint : String) : Effect
  | navigate (target : String) : Effect
  | setFormData (fd : FormData) : Effect
  | setCurrentImageUrl (url : String) : Effect
  | setImagePreview (url : String) : Effect
  | consoleError : Effect
  | alert (message : String) : Effect
  | setIsLoading (b : Bool) : Effect
  deriving DecidableEq, Repr

/-- The object passed to `setFormData` for a fetched post. -/
def formOf (post : Post) : FormData :=
  { title := post.title,
    content := post.content,
    excerpt := orElse post.excerpt "",
    tags := orElse (post.tags.map (String.intercalate ", ")) "",
    published := post.published }

/-- The value `imageUrl` computed for a truthy `data.post.image`. -/
def imageUrl (image : String) : String :=
  if startsWith image "http" then image else "http://localhost:5000" ++ image

/-- The `catch` block of `fetchPost`. -/
def catchBlock : List Effect :=
  [Effect.consoleError,
    Effect.alert "Unable to load post details. Redirecting to dashboard.",
    Effect.navigate "/dashboard"]

/-- The function `fetchPost`, as the sequence of its effects.  `response` is
how the awaited `makeRequest` completes; reading `user.id` of a null `user`
raises a TypeError, which the `catch` block handles like any other error. -/
def fetchPost (user : Option User) (id : String) (response : useApi.Outcome PostResponse) :
    List Effect :=
  [Effect.makeRequest "get" ("/posts/" ++ id)] ++
    (match response with
     | useApi.Outcome.thrown _ => catchBlock
     | useApi.Outcome.returned data =>
       match data.post with
       | none => catchBlock
       | some post =>
         match user with
         | none => catchBlock
         | some u =>
           if post.authorId != u.id && u.role != "ADMIN" then
             [Effect.navigate "/dashboard"]
           else
             [Effect.setFormData (formOf post)] ++
               (match post.image with
                | none => []
                | some image =>
                  if truthyStr image then
                    [Effect.setCurrentImageUrl (imageUrl image),
                      Effect.setImagePreview (imageUrl image)]
                  else []))
    ++ [Effect.setIsLoading false]

/-- The body of the effect hook: `if (id) fetchPost()`. -/
def loadEffect (user : Option User) (id : String) (response : useApi.Outcome PostResponse) :
    List Effect :=
  if truthyStr id then fetchPost user id response else []

/-- The state update performed by one effect. -/
def Effect.apply (s : PageState) : Effect → PageState
  | Effect.makeRequest _ _ => s
  | Effect.navigate target => { s with location := target }
  | Effect.setFormData fd => { s with formData := fd }
  | Effect.setCurrentImageUrl url => { s with currentImageUrl := some url }
  | Effect.setImagePreview url => { s with imagePreview := some url }
  | Effect.consoleError => s
  | Effect.alert _ => s
  | Effect.setIsLoading b => { s with isLoading := b }

/-- The state after a sequence of effects. -/
def run (s : PageState) (effects : List Effect) : PageState :=
  effects.foldl Effect.apply s

end EditPost

/-! ## ProtectedRoute -/

/-- C1 (fail-closed): with `loading = true`, for every user value and every
`requiredRole` (absent or any string, in particular READER, AUTHOR, ADMIN),
`ProtectedRoute` returns the loading placeholder; the result is neither the
children nor a redirect. -/
theorem ProtectedRoute_loading_pending {α : Type} (user : Option User)
    (requiredRole : Option String) (children : α) :
    ProtectedRoute user true requiredRole children = Rendered.loading
      ∧ ProtectedRoute user true requiredRole children ≠ Rendered.children children
      ∧ ∀ target, ProtectedRoute user true requiredRole children ≠ Rendered.navigate target := by
  simp [ProtectedRoute]

/-- C2 (unauthenticated denial): with `loading = false` and `user = null`, for
every `requiredRole` (absent or any string), `ProtectedRoute` returns the
redirect to "/login" and not the children. -/
theorem ProtectedRoute_anonymous_redirects_login {α : Type}
    (requiredRole : Option String) (children : α) :
    ProtectedRoute none false requiredRole children = Rendered.navigate "/login"
      ∧ ProtectedRoute none false requiredRole children ≠ Rendered.children children := by
  simp [ProtectedRoute]

/-- The guard condition of `ProtectedRoute` for a signed-in user and a truthy
`requiredRole`: children are returned exactly when the role equals the
requirement or is ADMIN. -/
theorem ProtectedRoute_some_eq {α : Type} (u : User) (R : String) (children : α)
    (hR : R ≠ "") :
    ProtectedRoute (some u) false (some R) children =
      if u.role = R ∨ u.role = "ADMIN" then Rendered.children children
      else Rendered.navigate "/" := by
  by_cases h1 : u.role = R <;> by_cases h2 : u.role = "ADMIN" <;>
    simp [ProtectedRoute, truthyProp, truthyStr, strictNe, hR, h1, h2]

/-- C3 (role satisfaction rule): with `loading = false`, a non-null user and
a present (truthy) `requiredRole` R, `ProtectedRoute` returns the children if
and only if `user.role = R` or `user.role = "ADMIN"`; an AUTHOR does not
satisfy a READER requirement and a READER does not satisfy an AUTHOR
requirement. -/
theorem ProtectedRoute_children_iff_role {α : Type} (u : User) (R : String) (children : α)
    (hR : R ≠ "") :
    (ProtectedRoute (some u) false (some R) children = Rendered.children children
        ↔ (u.role = R ∨ u.role = "ADMIN"))
      ∧ ProtectedRoute (some { u with role := "AUTHOR" }) false (some "READER") children
          ≠ Rendered.children children
      ∧ ProtectedRoute (some { u with role := "READER" }) false (some "AUTHOR") children
          ≠ Rendered.children children := by
  refine ⟨?_, ?_, ?_⟩
  · rw [ProtectedRoute_some_eq u R children hR]
    by_cases h : u.role = R ∨ u.role = "ADMIN" <;> simp [h]
  · rw [ProtectedRoute_some_eq _ _ _ (by decide)]
    simp
  · rw [ProtectedRoute_some_eq _ _ _ (by decide)]
    simp

/-- Witness of C3: a READER against the requirement AUTHOR. -/
theorem ProtectedRoute_children_iff_role_witness :
    "AUTHOR" ≠ "" ∧
    ((ProtectedRoute (some ⟨"u1", "Rita", "rita@example.com", "READER"⟩) false (some "AUTHOR")
        Page.Dashboard = Rendered.children Page.Dashboard
        ↔ ("READER" = "AUTHOR" ∨ "READER" = "ADMIN"))) :=
  ⟨by decide,
   (ProtectedRoute_children_iff_role ⟨"u1", "Rita", "rita@example.com", "READER"⟩ "AUTHOR"
      Page.Dashboard (by decide)).1⟩

/-- C4 (role-mismatch denial): with `loading = false`, a non-null user whose
role is neither the present (truthy) `requiredRole` nor ADMIN is redirected to
the home path "/": not to "/login", and the children are not returned. -/
theorem ProtectedRoute_mismatch_redirects_home {α : Type} (u : User) (R : String)
    (children : α) (hR : R ≠ "") (hne : u.role ≠ R) (hadmin : u.role ≠ "ADMIN") :
    ProtectedRoute (some u) false (some R) children = Rendered.navigate "/"
      ∧ ProtectedRoute (some u) false (some R) children ≠ Rendered.navigate "/login"
      ∧ ProtectedRoute (some u) false (some R) children ≠ Rendered.children children := by
  rw [ProtectedRoute_some_eq u R children hR]
  simp [hne, hadmin]

/-- Witness of C4: a READER against the requirement AUTHOR is sent home. -/
theorem ProtectedRoute_mismatch_redirects_home_witness :
    ProtectedRoute (some ⟨"u1", "Rita", "rita@example.com", "READER"⟩) false (some "AUTHOR")
      Page.Dashboard = Rendered.navigate "/" :=
  (ProtectedRoute_mismatch_redirects_home ⟨"u1", "Rita", "rita@example.com", "READER"⟩
    "AUTHOR" Page.Dashboard (by decide) (by decide) (by decide)).1

/-- C5 (admin override): with `loading = false`, a user whose role is ADMIN
gets the children for every `requiredRole`, absent or present. -/
theorem ProtectedRoute_admin_override {α : Type} (id name email : String)
    (requiredRole : Option String) (children : α) :
    ProtectedRoute (some ⟨id, name, email, "ADMIN"⟩) false requiredRole children
      = Rendered.children children := by
  simp [ProtectedRoute]

/-- C6 (authenticated-only requirement): with `loading = false` and
`requiredRole` absent, every non-null user gets the children, whatever the
value of its role. -/
theorem ProtectedRoute_no_requirement {α : Type} (u : User) (children : α) :
    ProtectedRoute (some u) false none children = Rendered.children children := by
  simp [ProtectedRoute, truthyProp]

/-! ## The route table -/

/-- C7 (route table decisions): with `loading = false`, the guarded routes of
`App` are exactly /dashboard, /create-post, /admin, /edit-post/:id and
/profile; an anonymous visitor is redirected to /login on each of them; a
READER is granted /profile and redirected home on the other four; an AUTHOR is
granted all but /admin, where it is redirected home; an ADMIN is granted all
five.  The routes /, /login, /register and /post/:id are mounted without a
guard. -/
theorem App_route_table_decisions (id name email : String) :
    App.guardedPaths = ["/dashboard", "/create-post", "/admin", "/edit-post/:id", "/profile"]
    ∧ App.directPaths = ["/", "/login", "/register", "/post/:id"]
    ∧ (∀ path ∈ App.guardedPaths,
        App.render none false path = some (Rendered.navigate "/login"))
    ∧ (App.render (some ⟨id, name, email, "READER"⟩) false "/profile"
          = some (Rendered.children Page.Profile)
        ∧ ∀ path ∈ ["/dashboard", "/create-post", "/edit-post/:id", "/admin"],
            App.render (some ⟨id, name, email, "READER"⟩) false path
              = some (Rendered.navigate "/"))
    ∧ (App.render (some ⟨id, name, email, "AUTHOR"⟩) false "/dashboard"
          = some (Rendered.children Page.Dashboard)
        ∧ App.render (some ⟨id, name, email, "AUTHOR"⟩) false "/create-post"
          = some (Rendered.children Page.CreatePost)
        ∧ App.render (some ⟨id, name, email, "AUTHOR"⟩) false "/edit-post/:id"
          = some (Rendered.children Page.EditPost)
        ∧ App.render (some ⟨id, name, email, "AUTHOR"⟩) false "/profile"
          = some (Rendered.children Page.Profile)
        ∧ App.render (some ⟨id, name, email, "AUTHOR"⟩) false "/admin"
          = some (Rendered.navigate "/"))
    ∧ (App.render (some ⟨id, name, email, "ADMIN"⟩) false "/dashboard"
          = some (Rendered.children Page.Dashboard)
        ∧ App.render (some ⟨id, name, email, "ADMIN"⟩) false "/create-post"
          = some (Rendered.children Page.CreatePost)
        ∧ App.render (some ⟨id, name, email, "ADMIN"⟩) false "/edit-post/:id"
          = some (Rendered.children Page.EditPost)
        ∧ App.render (some ⟨id, name, email, "ADMIN"⟩) false "/profile"
          = some (Rendered.children Page.Profile)
        ∧ App.render (some ⟨id, name, email, "ADMIN"⟩) false "/admin"
          = some (Rendered.children Page.AdminPanel)) := by
  refine ⟨by decide, by decide, ?_, ⟨?_, ?_⟩, ?_, ?_⟩
  · intro path hp
    have hp2 : path ∈ ["/dashboard", "/create-post", "/admin", "/edit-post/:id", "/profile"] := hp
    simp only [List.mem_cons, List.mem_singleton, List.not_mem_nil, or_false] at hp2
    rcases hp2 with h | h | h | h | h <;> subst h <;>
      simp [App.render, App.elementAt, App.routes, RouteElement.render, ProtectedRoute]
  · simp [App.render, App.elementAt, App.routes, RouteElement.render, ProtectedRoute, truthyProp]
  · intro path hp
    simp only [List.mem_cons, List.mem_singleton, List.not_mem_nil, or_false] at hp
    rcases hp with h | h | h | h <;> subst h <;>
      simp [App.render, App.elementAt, App.routes, RouteElement.render, ProtectedRoute,
        truthyProp, truthyStr, strictNe]
  · simp [App.render, App.elementAt, App.routes, RouteElement.render, ProtectedRoute,
      truthyProp, truthyStr, strictNe]
  · simp [App.render, App.elementAt, App.routes, RouteElement.render, ProtectedRoute,
      truthyProp, truthyStr, strictNe]

/-! ## Navigation against the guard -/

/-- What `App` renders at /dashboard for a signed-in user. -/
theorem App_render_dashboard (u : User) :
    App.render (some u) false "/dashboard" =
      some (if u.role = "AUTHOR" ∨ u.role = "ADMIN" then Rendered.children Page.Dashboard
        else Rendered.navigate "/") := by
  have h := ProtectedRoute_some_eq u "AUTHOR" Page.Dashboard (by decide)
  simpa [App.render, App.elementAt, App.routes, RouteElement.render] using h

/-- What `App` renders at /admin for a signed-in user. -/
theorem App_render_admin (u : User) :
    App.render (some u) false "/admin" =
      some (if u.role = "ADMIN" then Rendered.children Page.AdminPanel
        else Rendered.navigate "/") := by
  have h := ProtectedRoute_some_eq u "ADMIN" Page.AdminPanel (by decide)
  simpa [App.render, App.elementAt, App.routes, RouteElement.render] using h

/-- C8 (guard/navigation agreement in `Header`): for every authenticated user,
the desktop navigation and the mobile navigation each offer the link to
/dashboard if and only if `App` (with `loading = false`) renders the Dashboard
page for that user, and each offer the link to /admin if and only if `App`
renders the AdminPanel page for that user. -/
theorem Header_links_agree_with_guard (u : User) :
    (offersLink (Header.desktopNav true (some u)) "/dashboard" = true
        ↔ App.render (some u) false "/dashboard" = some (Rendered.children Page.Dashboard))
    ∧ (offersLink (Header.desktopNav true (some u)) "/admin" = true
        ↔ App.render (some u) false "/admin" = some (Rendered.children Page.AdminPanel))
    ∧ (offersLink (Header.mobileNav true (some u)) "/dashboard" = true
        ↔ App.render (some u) false "/dashboard" = some (Rendered.children Page.Dashboard))
    ∧ (offersLink (Header.mobileNav true (some u)) "/admin" = true
        ↔ App.render (some u) false "/admin" = some (Rendered.children Page.AdminPanel)) := by
  rw [App_render_dashboard, App_render_admin]
  by_cases h1 : u.role = "AUTHOR" <;> by_cases h2 : u.role = "ADMIN" <;>
    simp [offersLink, Header.desktopNav, Header.mobileNav, renderIf, NavItem.linksTo,
      ROLES.AUTHOR, ROLES.ADMIN, h1, h2]

/-- C9, evaluated at a READER: the hero section of `Home` offers the link to
/dashboard, while `App` (with `loading = false`) redirects that user from
/dashboard to the home path; the link to /create-post is not offered. -/
theorem Home_offers_dashboard_to_reader :
    offersLink (Home.heroActions true (some ⟨"u1", "Rita", "rita@example.com", "READER"⟩))
        "/dashboard" = true
    ∧ App.render (some ⟨"u1", "Rita", "rita@example.com", "READER"⟩) false "/dashboard"
        = some (Rendered.navigate "/")
    ∧ offersLink (Home.heroActions true (some ⟨"u1", "Rita", "rita@example.com", "READER"⟩))
        "/create-post" = false := by
  refine ⟨by decide, ?_, by decide⟩
  rw [App_render_dashboard]
  simp

/-! ## Login: validation before the network -/

/-- The effects of `handleSubmit` when the form passes validation. -/
theorem Login_handleSubmit_valid (validateEmail : String → Bool)
    (login : String → String → Login.LoginResult) (fd : Login.FormData)
    (he : fd.email ≠ "") (hv : validateEmail fd.email = true) (hp : fd.password ≠ "") :
    Login.handleSubmit validateEmail login fd =
      [Login.Effect.preventDefault, Login.Effect.setErrors Login.Errors.empty,
        Login.Effect.setIsSubmitting true, Login.Effect.login fd.email fd.password]
      ++ (if !(login fd.email fd.password).success then
            [Login.Effect.setErrors ⟨none, none, some (login fd.email fd.password).error⟩]
          else [])
      ++ [Login.Effect.setIsSubmitting false] := by
  simp [Login.handleSubmit, Login.validateForm, truthyStr, he, hv, hp, Login.Errors.keyCount,
    Login.Errors.empty]

/-- The effects of `handleSubmit` when the form fails validation. -/
theorem Login_handleSubmit_invalid (validateEmail : String → Bool)
    (login : String → String → Login.LoginResult) (fd : Login.FormData)
    (h : ¬ (fd.email ≠ "" ∧ validateEmail fd.email = true ∧ fd.password ≠ "")) :
    Login.handleSubmit validateEmail login fd =
      [Login.Effect.preventDefault,
        Login.Effect.setErrors
          ⟨if fd.email = "" then some "Email is required"
            else if validateEmail fd.email = false then some "Please enter a valid email"
            else none,
           if fd.password = "" then some "Password is required" else none,
           none⟩] := by
  by_cases he : fd.email = "" <;> by_cases hv : validateEmail fd.email = true <;>
    by_cases hp : fd.password = "" <;>
    simp_all [Login.handleSubmit, Login.validateForm, truthyStr, Login.Errors.keyCount,
      Login.Errors.empty]

/-- C10 (Login validation precedes the network): `handleSubmit` invokes
`login(email, password)` if and only if the email is non-empty,
`validateEmail(email)` holds and the password is non-empty, and it never
invokes `login` with other arguments.  Otherwise `login` is not called,
`isSubmitting` is never set, `errors.email` is "Email is required" for an
empty email and "Please enter a valid email" for a non-empty invalid one, and
`errors.password` is "Password is required" for an empty password. -/
theorem Login_validation_precedes_network (validateEmail : String → Bool)
    (login : String → String → Login.LoginResult) (fd : Login.FormData) (s : Login.State) :
    (Login.Effect.login fd.email fd.password ∈ Login.handleSubmit validateEmail login fd
        ↔ (fd.email ≠ "" ∧ validateEmail fd.email = true ∧ fd.password ≠ ""))
    ∧ (∀ e p, Login.Effect.login e p ∈ Login.handleSubmit validateEmail login fd →
        e = fd.email ∧ p = fd.password)
    ∧ (¬ (fd.email ≠ "" ∧ validateEmail fd.email = true ∧ fd.password ≠ "") →
        (∀ e p, Login.Effect.login e p ∉ Login.handleSubmit validateEmail login fd)
        ∧ (∀ b, Login.Effect.setIsSubmitting b ∉ Login.handleSubmit validateEmail login fd)
        ∧ (Login.run s (Login.handleSubmit validateEmail login fd)).isSubmitting = s.isSubmitting
        ∧ (fd.email = "" →
            (Login.run s (Login.handleSubmit validateEmail login fd)).errors.email
              = some "Email is required")
        ∧ (fd.email ≠ "" → validateEmail fd.email = false →
            (Login.run s (Login.handleSubmit validateEmail login fd)).errors.email
              = some "Please enter a valid email")
        ∧ (fd.password = "" →
            (Login.run s (Login.handleSubmit validateEmail login fd)).errors.password
              = some "Password is required")) := by
  by_cases h : fd.email ≠ "" ∧ validateEmail fd.email = true ∧ fd.password ≠ ""
  · obtain ⟨he, hv, hp⟩ := h
    rw [Login_handleSubmit_valid validateEmail login fd he hv hp]
    refine ⟨?_, ?_, ?_⟩
    · simp [he, hv, hp]
    · intro e p hmem
      cases hs : (login fd.email fd.password).success <;> simp [hs] at hmem <;> exact hmem
    · intro hn
      exact absurd ⟨he, hv, hp⟩ hn
  · rw [Login_handleSubmit_invalid validateEmail login fd h]
    refine ⟨?_, ?_, ?_⟩
    · simp [h]
    · intro e p hmem
      simp at hmem
    · intro _
      refine ⟨by simp, by simp, by simp [Login.run, Login.Effect.apply], ?_, ?_, ?_⟩
      · intro he
        simp [Login.run, Login.Effect.apply, he]
      · intro he hv
        simp [Login.run, Login.Effect.apply, he, hv]
      · intro hp
        simp [Login.run, Login.Effect.apply, hp]

/-- Witness of C10: an empty form is rejected without calling `login`, a
filled-in form with an accepted email calls it. -/
theorem Login_validation_precedes_network_witness :
    (Login.run ⟨⟨"", ""⟩, Login.Errors.empty, false⟩
        (Login.handleSubmit (fun e => e == "rita@example.com")
          (fun _ _ => ⟨false, "Invalid credentials"⟩) ⟨"", ""⟩)).errors.email
      = some "Email is required"
    ∧ Login.Effect.login "rita@example.com" "secret"
        ∈ Login.handleSubmit (fun e => e == "rita@example.com")
            (fun _ _ => ⟨false, "Invalid credentials"⟩) ⟨"rita@example.com", "secret"⟩ :=
  ⟨((Login_validation_precedes_network (fun e => e == "rita@example.com")
      (fun _ _ => ⟨false, "Invalid credentials"⟩) ⟨"", ""⟩
      ⟨⟨"", ""⟩, Login.Errors.empty, false⟩).2.2 (by decide)).2.2.2.1 rfl,
   (Login_validation_precedes_network (fun e => e == "rita@example.com")
      (fun _ _ => ⟨false, "Invalid credentials"⟩) ⟨"rita@example.com", "secret"⟩
      ⟨⟨"", ""⟩, Login.Errors.empty, false⟩).1.2 (by decide)⟩
/-! ## Register: validation before the network -/

/-- The errors object computed by `validateForm` of `Register`, entry by
entry. -/
theorem Register_validateForm_errors (vn ve vp : String → Bool) (fd : Register.FormData) :
    (Register.validateForm vn ve vp fd).1 =
      { name := if truthyStr fd.name then
            (if vn fd.name then none else some "Name must be at least 2 characters long")
          else some "Name is required",
        email := if truthyStr fd.email then
            (if ve fd.email then none else some "Please enter a valid email")
          else some "Email is required",
        password := if truthyStr fd.password then
            (if vp fd.password then none
             else some "Password must be at least 6 characters long")
          else some "Password is required",
        confirmPassword := if truthyStr fd.confirmPassword then
            (if fd.password != fd.confirmPassword then some "Passwords do not match" else none)
          else some "Please confirm your password",
        submit := none } := by
  unfold Register.validateForm
  generalize truthyStr fd.name = a1
  generalize vn fd.name = a2
  generalize truthyStr fd.email = a3
  generalize ve fd.email = a4
  generalize truthyStr fd.password = a5
  generalize vp fd.password = a6
  generalize truthyStr fd.confirmPassword = a7
  generalize (fd.password != fd.confirmPassword) = a8
  cases a1 <;> cases a2 <;> cases a3 <;> cases a4 <;> cases a5 <;> cases a6 <;>
    cases a7 <;> cases a8 <;> rfl

/-- An errors object of `Register` has no keys exactly when every entry is
absent. -/
theorem Register_keyCount_eq_zero_iff (e : Register.Errors) :
    e.keyCount = 0 ↔
      (e.name = none ∧ e.email = none ∧ e.password = none ∧ e.confirmPassword = none
        ∧ e.submit = none) := by
  rcases e with ⟨a, b, c, d, f⟩
  cases a <;> cases b <;> cases c <;> cases d <;> cases f <;>
    simp [Register.Errors.keyCount]

/-- When `validateForm` of `Register` returns true. -/
theorem Register_validateForm_ok_iff (vn ve vp : String → Bool) (fd : Register.FormData) :
    (Register.validateForm vn ve vp fd).2 = true ↔
      (fd.name ≠ "" ∧ vn fd.name = true ∧ fd.email ≠ "" ∧ ve fd.email = true
        ∧ fd.password ≠ "" ∧ vp fd.password = true
        ∧ fd.confirmPassword ≠ "" ∧ fd.confirmPassword = fd.password) := by
  have h2 : (Register.validateForm vn ve vp fd).2
      = ((Register.validateForm vn ve vp fd).1.keyCount == 0) := rfl
  have h8 : (fd.confirmPassword = fd.password) = (fd.password = fd.confirmPassword) :=
    propext eq_comm
  rw [h2, beq_iff_eq, Register_keyCount_eq_zero_iff, Register_validateForm_errors, h8]
  by_cases h1 : fd.name = "" <;> by_cases h3 : fd.email = "" <;>
    by_cases h5 : fd.password = "" <;> by_cases h7 : fd.confirmPassword = "" <;>
    simp [truthyStr, h1, h3, h5, h7]

/-- The `confirmPassword` entry of the errors computed by `validateForm`. -/
theorem Register_validateForm_confirm (vn ve vp : String → Bool) (fd : Register.FormData) :
    (Register.validateForm vn ve vp fd).1.confirmPassword =
      if fd.confirmPassword = "" then some "Please confirm your password"
      else if fd.password = fd.confirmPassword then none
      else some "Passwords do not match" := by
  rw [Register_validateForm_errors]
  by_cases h7 : fd.confirmPassword = "" <;> by_cases h8 : fd.password = fd.confirmPassword <;>
    simp [truthyStr, h7, h8]

/-- The shape of the effects of `handleSubmit` of `Register`. -/
theorem Register_handleSubmit_eq (vn ve vp : String → Bool)
    (register : String → String → String → Register.RegisterResult) (fd : Register.FormData) :
    Register.handleSubmit vn ve vp register fd =
      [Register.Effect.preventDefault,
        Register.Effect.setErrors (Register.validateForm vn ve vp fd).1] ++
      (if (Register.validateForm vn ve vp fd).2 = true then
        [Register.Effect.setIsSubmitting true,
          Register.Effect.register fd.email fd.password fd.name]
          ++ (if (register fd.email fd.password fd.name).success = true then []
              else [Register.Effect.setErrors
                ⟨none, none, none, none, some (register fd.email fd.password fd.name).error⟩])
          ++ [Register.Effect.setIsSubmitting false]
       else []) := by
  unfold Register.handleSubmit
  generalize Register.validateForm vn ve vp fd = v
  generalize register fd.email fd.password fd.name = r
  rcases v with ⟨v1, v2⟩
  rcases r with ⟨ok, msg⟩
  cases v2 <;> cases ok <;> rfl

/-- C11, as stated, fails for an empty confirmation: with password "secret1"
and an empty `confirmPassword` the two passwords mismatch, `register` is not
called, and `errors.confirmPassword` is "Please confirm your password", not
"Passwords do not match". -/
theorem Register_empty_confirmation_counterexample :
    (⟨"Rita", "rita@example.com", "secret1", ""⟩ : Register.FormData).password
        ≠ (⟨"Rita", "rita@example.com", "secret1", ""⟩ : Register.FormData).confirmPassword
    ∧ (Register.run ⟨⟨"Rita", "rita@example.com", "secret1", ""⟩, Register.Errors.empty, false⟩
        (Register.handleSubmit (fun _ => true) (fun _ => true) (fun _ => true)
          (fun _ _ _ => ⟨true, ""⟩)
          ⟨"Rita", "rita@example.com", "secret1", ""⟩)).errors.confirmPassword
        = some "Please confirm your password"
    ∧ (Register.run ⟨⟨"Rita", "rita@example.com", "secret1", ""⟩, Register.Errors.empty, false⟩
        (Register.handleSubmit (fun _ => true) (fun _ => true) (fun _ => true)
          (fun _ _ _ => ⟨true, ""⟩)
          ⟨"Rita", "rita@example.com", "secret1", ""⟩)).errors.confirmPassword
        ≠ some "Passwords do not match" := by
  refine ⟨by decide, ?_, ?_⟩
  · rw [Register_handleSubmit_eq]
    simp [Register.run, Register.Effect.apply, Register_validateForm_ok_iff,
      Register_validateForm_confirm]
  · rw [Register_handleSubmit_eq]
    simp [Register.run, Register.Effect.apply, Register_validateForm_ok_iff,
      Register_validateForm_confirm]

/-- C11 (amended): `handleSubmit` of `Register` invokes
`register(email, password, name)` if and only if name, email, password and
confirmPassword are all non-empty, the three validators hold and
confirmPassword equals password; it never invokes `register` with other
arguments.  With mismatching passwords `register` is not called, and
`errors.confirmPassword` is "Passwords do not match" when confirmPassword is
non-empty and "Please confirm your password" when it is empty. -/
theorem Register_validation_precedes_network (vn ve vp : String → Bool)
    (register : String → String → String → Register.RegisterResult)
    (fd : Register.FormData) (s : Register.State) :
    (Register.Effect.register fd.email fd.password fd.name
        ∈ Register.handleSubmit vn ve vp register fd
      ↔ (fd.name ≠ "" ∧ vn fd.name = true ∧ fd.email ≠ "" ∧ ve fd.email = true
          ∧ fd.password ≠ "" ∧ vp fd.password = true
          ∧ fd.confirmPassword ≠ "" ∧ fd.confirmPassword = fd.password))
    ∧ (∀ e p n, Register.Effect.register e p n ∈ Register.handleSubmit vn ve vp register fd →
        e = fd.email ∧ p = fd.password ∧ n = fd.name)
    ∧ (fd.password ≠ fd.confirmPassword →
        (∀ e p n, Register.Effect.register e p n ∉ Register.handleSubmit vn ve vp register fd)
        ∧ (fd.confirmPassword ≠ "" →
            (Register.run s (Register.handleSubmit vn ve vp register fd)).errors.confirmPassword
              = some "Passwords do not match")
        ∧ (fd.confirmPassword = "" →
            (Register.run s (Register.handleSubmit vn ve vp register fd)).errors.confirmPassword
              = some "Please confirm your password")) := by
  rw [Register_handleSubmit_eq]
  by_cases hv : (Register.validateForm vn ve vp fd).2 = true
  · have hv2 := (Register_validateForm_ok_iff vn ve vp fd).1 hv
    refine ⟨?_, ?_, ?_⟩
    · simp [hv, hv2]
    · intro e p n hmem
      cases hs : (register fd.email fd.password fd.name).success <;>
        simp [hv, hs] at hmem <;> exact hmem
    · intro hne
      exact absurd hv2.2.2.2.2.2.2.2.symm hne
  · have hv2 : ¬ (fd.name ≠ "" ∧ vn fd.name = true ∧ fd.email ≠ "" ∧ ve fd.email = true
          ∧ fd.password ≠ "" ∧ vp fd.password = true
          ∧ fd.confirmPassword ≠ "" ∧ fd.confirmPassword = fd.password) :=
      fun h => hv ((Register_validateForm_ok_iff vn ve vp fd).2 h)
    refine ⟨?_, ?_, ?_⟩
    · simp only [hv, if_false, List.append_nil]
      constructor
      · intro hmem
        simp at hmem
      · intro h
        exact absurd h hv2
    · intro e p n hmem
      simp [hv] at hmem
    · intro hne
      refine ⟨?_, ?_, ?_⟩
      · intro e p n hmem
        simp [hv] at hmem
      · intro hc
        simp [hv, Register.run, Register.Effect.apply, Register_validateForm_confirm, hc, hne]
      · intro hc
        simp [hv, Register.run, Register.Effect.apply, Register_validateForm_confirm, hc]

/-- Witness of C11 (amended): a complete, valid form calls `register`; a
non-empty confirmation that differs is reported as a mismatch. -/
theorem Register_validation_precedes_network_witness :
    Register.Effect.register "rita@example.com" "secret1" "Rita"
        ∈ Register.handleSubmit (fun _ => true) (fun _ => true) (fun _ => true)
            (fun _ _ _ => ⟨true, ""⟩) ⟨"Rita", "rita@example.com", "secret1", "secret1"⟩
    ∧ (Register.run ⟨⟨"Rita", "rita@example.com", "secret1", "secret2"⟩,
          Register.Errors.empty, false⟩
        (Register.handleSubmit (fun _ => true) (fun _ => true) (fun _ => true)
          (fun _ _ _ => ⟨true, ""⟩)
          ⟨"Rita", "rita@example.com", "secret1", "secret2"⟩)).errors.confirmPassword
        = some "Passwords do not match" :=
  ⟨(Register_validation_precedes_network (fun _ => true) (fun _ => true) (fun _ => true)
      (fun _ _ _ => ⟨true, ""⟩) ⟨"Rita", "rita@example.com", "secret1", "secret1"⟩
      ⟨⟨"Rita", "rita@example.com", "secret1", "secret1"⟩, Register.Errors.empty, false⟩).1.2
      (by decide),
   ((Register_validation_precedes_network (fun _ => true) (fun _ => true) (fun _ => true)
      (fun _ _ _ => ⟨true, ""⟩) ⟨"Rita", "rita@example.com", "secret1", "secret2"⟩
      ⟨⟨"Rita", "rita@example.com", "secret1", "secret2"⟩, Register.Errors.empty, false⟩).2.2
      (by decide)).2.1 (by decide)⟩


/-! ## Login: the result of `login` -/

/-- C12 (login failure is reported verbatim): when validation passes and
`login` resolves to `success = false` with `error = e`, `handleSubmit` sets the
errors to exactly `{submit: e}` and then resets `isSubmitting` to false; when
`login` resolves to `success = true`, no `setErrors` follows the call, so the
errors stay as they were when `login` was invoked, and `isSubmitting` is
reset to false as well. -/
theorem Login_failure_reported_verbatim (validateEmail : String → Bool)
    (login : String → String → Login.LoginResult) (fd : Login.FormData) (s : Login.State)
    (he : fd.email ≠ "") (hv : validateEmail fd.email = true) (hp : fd.password ≠ "") :
    (∀ e, login fd.email fd.password = ⟨false, e⟩ →
      Login.handleSubmit validateEmail login fd =
          [Login.Effect.preventDefault, Login.Effect.setErrors Login.Errors.empty,
            Login.Effect.setIsSubmitting true, Login.Effect.login fd.email fd.password,
            Login.Effect.setErrors ⟨none, none, some e⟩, Login.Effect.setIsSubmitting false]
        ∧ (Login.run s (Login.handleSubmit validateEmail login fd)).errors
            = ⟨none, none, some e⟩
        ∧ (Login.run s (Login.handleSubmit validateEmail login fd)).isSubmitting = false)
    ∧ (∀ e, login fd.email fd.password = ⟨true, e⟩ →
      Login.handleSubmit validateEmail login fd =
          [Login.Effect.preventDefault, Login.Effect.setErrors Login.Errors.empty,
            Login.Effect.setIsSubmitting true, Login.Effect.login fd.email fd.password,
            Login.Effect.setIsSubmitting false]
        ∧ (Login.run s (Login.handleSubmit validateEmail login fd)).errors
            = (Login.run s [Login.Effect.preventDefault,
                Login.Effect.setErrors Login.Errors.empty, Login.Effect.setIsSubmitting true,
                Login.Effect.login fd.email fd.password]).errors
        ∧ (Login.run s (Login.handleSubmit validateEmail login fd)).isSubmitting = false) := by
  rw [Login_handleSubmit_valid validateEmail login fd he hv hp]
  constructor
  · intro e hres
    simp [hres, Login.run, Login.Effect.apply]
  · intro e hres
    simp [hres, Login.run, Login.Effect.apply]

/-- Witness of C12: a rejected login leaves `{submit: "Invalid credentials"}`
and `isSubmitting = false`. -/
theorem Login_failure_reported_verbatim_witness :
    (Login.run ⟨⟨"rita@example.com", "secret"⟩, Login.Errors.empty, false⟩
        (Login.handleSubmit (fun e => e == "rita@example.com")
          (fun _ _ => ⟨false, "Invalid credentials"⟩)
          ⟨"rita@example.com", "secret"⟩)).errors
      = ⟨none, none, some "Invalid credentials"⟩
    ∧ (Login.run ⟨⟨"rita@example.com", "secret"⟩, Login.Errors.empty, false⟩
        (Login.handleSubmit (fun e => e == "rita@example.com")
          (fun _ _ => ⟨false, "Invalid credentials"⟩)
          ⟨"rita@example.com", "secret"⟩)).isSubmitting = false :=
  ((Login_failure_reported_verbatim (fun e => e == "rita@example.com")
      (fun _ _ => ⟨false, "Invalid credentials"⟩) ⟨"rita@example.com", "secret"⟩
      ⟨⟨"rita@example.com", "secret"⟩, Login.Errors.empty, false⟩
      (by decide) (by decide) (by decide)).1 "Invalid credentials" rfl).2

/-! ## useApi.makeRequest -/

/-- The effects and outcome of `makeRequest` when the request is rejected. -/
theorem makeRequest_rejected {δ : Type} (apiBaseUrl : String)
    (axios : useApi.Config → useApi.AxiosResult δ) (method endpoint : String)
    (data : JsValue) (options : useApi.Options) (err : useApi.AxiosError)
    (h : axios (useApi.requestConfig apiBaseUrl method endpoint data options)
      = useApi.AxiosResult.rejected err) :
    useApi.makeRequest apiBaseUrl axios method endpoint data options =
      ([useApi.Effect.setLoading true, useApi.Effect.setError none,
        useApi.Effect.axios (useApi.requestConfig apiBaseUrl method endpoint data options),
        useApi.Effect.setError (some (useApi.errorMessage err)),
        useApi.Effect.setLoading false],
       useApi.Outcome.thrown (useApi.errorMessage err)) := by
  simp [useApi.makeRequest, h]

/-- The effects and outcome of `makeRequest` when the request is resolved. -/
theorem makeRequest_resolved {δ : Type} (apiBaseUrl : String)
    (axios : useApi.Config → useApi.AxiosResult δ) (method endpoint : String)
    (data : JsValue) (options : useApi.Options) (d : δ)
    (h : axios (useApi.requestConfig apiBaseUrl method endpoint data options)
      = useApi.AxiosResult.resolved d) :
    useApi.makeRequest apiBaseUrl axios method endpoint data options =
      ([useApi.Effect.setLoading true, useApi.Effect.setError none,
        useApi.Effect.axios (useApi.requestConfig apiBaseUrl method endpoint data options),
        useApi.Effect.setLoading false],
       useApi.Outcome.returned d) := by
  simp [useApi.makeRequest, h]


/-- C13 (centralized credential invalidation): whatever the method, endpoint,
payload and options of the call, when a request made through `makeRequest` is
rejected with status 401 while the session is Authenticated, `makeRequest`
issues that one request, the session store moves to Anonymous exactly once
and the persisted credential is cleared; `makeRequest` then sets its error
state, resets `loading` and throws.  A rejection with another status, or
without a response, leaves the session and the credential as they were. -/
theorem makeRequest_401_invalidates_credential {δ : Type} (apiBaseUrl : String)
    (axios : useApi.Config → useApi.AxiosResult δ) (method endpoint : String)
    (data : JsValue) (options : useApi.Options) (identity : User) (credential : String)
    (api : useApi.HookState) (err : useApi.AxiosError)
    (h : axios (useApi.requestConfig apiBaseUrl method endpoint data options)
      = useApi.AxiosResult.rejected err) :
    (useApi.makeRequest apiBaseUrl axios method endpoint data options).1
        = [useApi.Effect.setLoading true, useApi.Effect.setError none,
            useApi.Effect.axios (useApi.requestConfig apiBaseUrl method endpoint data options),
            useApi.Effect.setError (some (useApi.errorMessage err)),
            useApi.Effect.setLoading false]
    ∧ (err.response.map useApi.ErrorResponse.status = some 401 →
        ClientState.afterRequest axios
            ⟨⟨Session.Authenticated identity credential, some credential⟩, 0, api⟩
            (useApi.makeRequest apiBaseUrl axios method endpoint data options).1
          = ⟨⟨Session.Anonymous, none⟩, 1, ⟨false, some (useApi.errorMessage err)⟩⟩)
    ∧ (err.response.map useApi.ErrorResponse.status ≠ some 401 →
        ClientState.afterRequest axios
            ⟨⟨Session.Authenticated identity credential, some credential⟩, 0, api⟩
            (useApi.makeRequest apiBaseUrl axios method endpoint data options).1
          = ⟨⟨Session.Authenticated identity credential, some credential⟩, 0,
              ⟨false, some (useApi.errorMessage err)⟩⟩)
    ∧ (useApi.makeRequest apiBaseUrl axios method endpoint data options).2
        = useApi.Outcome.thrown (useApi.errorMessage err) := by
  rw [makeRequest_rejected apiBaseUrl axios method endpoint data options err h]
  refine ⟨rfl, ?_, ?_, rfl⟩
  · intro h401
    simp [ClientState.afterRequest, ClientState.step, SessionStore.onResponse,
      useApi.AxiosResult.rejectedStatus, useApi.Effect.apply, h, h401]
  · intro h401
    simp [ClientState.afterRequest, ClientState.step, SessionStore.onResponse,
      useApi.AxiosResult.rejectedStatus, useApi.Effect.apply, h, h401]

/-- Witness of C13: a 401 on `GET /posts/user/my-posts` while Authenticated
ends in Anonymous with no credential, after one transition. -/
theorem makeRequest_401_invalidates_credential_witness :
    ClientState.afterRequest
        (fun _ => (useApi.AxiosResult.rejected
          ⟨some ⟨401, some ⟨some "Unauthorized"⟩⟩,
            some "Request failed with status code 401"⟩ : useApi.AxiosResult Unit))
        ⟨⟨Session.Authenticated ⟨"u1", "Rita", "rita@example.com", "READER"⟩ "tok",
          some "tok"⟩, 0, useApi.HookState.initial⟩
        (useApi.makeRequest "http://localhost:5000/api"
          (fun _ => (useApi.AxiosResult.rejected
            ⟨some ⟨401, some ⟨some "Unauthorized"⟩⟩,
              some "Request failed with status code 401"⟩ : useApi.AxiosResult Unit))
          "get" "/posts/user/my-posts" JsValue.null useApi.Options.empty).1
      = ⟨⟨Session.Anonymous, none⟩, 1,
          ⟨false, some (useApi.errorMessage ⟨some ⟨401, some ⟨some "Unauthorized"⟩⟩,
              some "Request failed with status code 401"⟩)⟩⟩ :=
  (makeRequest_401_invalidates_credential "http://localhost:5000/api"
    (fun _ => (useApi.AxiosResult.rejected
      ⟨some ⟨401, some ⟨some "Unauthorized"⟩⟩,
        some "Request failed with status code 401"⟩ : useApi.AxiosResult Unit))
    "get" "/posts/user/my-posts" JsValue.null useApi.Options.empty
    ⟨"u1", "Rita", "rita@example.com", "READER"⟩ "tok" useApi.HookState.initial
    ⟨some ⟨401, some ⟨some "Unauthorized"⟩⟩, some "Request failed with status code 401"⟩
    rfl).2.1 rfl


/-! ## Logout -/

/-- C14 (logout is unconditional): `logout()` moves the Session to Anonymous
and clears the persisted credential whether or not the network is reachable;
`Header.handleLogout` is the three statements `logout()`, `navigate("/")`,
`setIsMobileMenuOpen(false)`, so whatever `logout` returns, the store is the
one `logout` leaves, the location is "/" and the mobile menu is closed. -/
theorem Header_handleLogout_unconditional (networkReachable : Bool) (s : Header.State) :
    (logout networkReachable s.store).1 = ⟨Session.Anonymous, none⟩
    ∧ Header.handleLogout
        = [Header.Effect.logout, Header.Effect.navigate "/",
            Header.Effect.setIsMobileMenuOpen false]
    ∧ (∀ (ρ : Type) (logoutFn : SessionStore → SessionStore × ρ),
        Header.run logoutFn s Header.handleLogout
          = ⟨(logoutFn s.store).1, "/", false⟩)
    ∧ Header.run (logout networkReachable) s Header.handleLogout
        = ⟨⟨Session.Anonymous, none⟩, "/", false⟩ := by
  refine ⟨rfl, rfl, ?_, rfl⟩
  intro ρ logoutFn
  rfl

/-! ## AdminPanel -/

/-- C15 (role enumeration is preserved by role changes): `ROLES` has exactly
the three distinct values READER, AUTHOR and ADMIN, and every request the
role modal can issue through an enabled role button is the role update of
the selected user to one of these three values, different from the current
role of the selected user. -/
theorem AdminPanel_role_updates_within_ROLES (selectedUser : User) :
    ROLES.values = ["READER", "AUTHOR", "ADMIN"]
    ∧ ROLES.values.Nodup
    ∧ (∀ b ∈ AdminPanel.roleButtons (some selectedUser),
        b.onClick = AdminPanel.handleRoleUpdate selectedUser.id b.role
          ∧ b.role ∈ ROLES.values
          ∧ (b.disabled = true ↔ selectedUser.role = b.role))
    ∧ (∀ r ∈ AdminPanel.issuableRoleUpdates (some selectedUser),
        ∃ role, role ∈ ROLES.values ∧ role ≠ selectedUser.role
          ∧ r = ⟨"patch", "/users/" ++ selectedUser.id ++ "/role",
                  JsValue.obj [("role", role)]⟩) := by
  refine ⟨by decide, by decide, ?_, ?_⟩
  · intro b hb
    simp only [AdminPanel.roleButtons, List.mem_map] at hb
    obtain ⟨role, hrole, rfl⟩ := hb
    exact ⟨rfl, hrole, by simp⟩
  · intro r hr
    simp only [AdminPanel.issuableRoleUpdates, AdminPanel.roleButtons, List.mem_map,
      List.mem_filter] at hr
    obtain ⟨b, ⟨⟨role, hrole, rfl⟩, hen⟩, rfl⟩ := hr
    refine ⟨role, hrole, ?_, rfl⟩
    intro heq
    simp [heq] at hen

/-- C16, evaluated on the users table: with current user u1, the Delete
button of the row of another user u2 is disabled, although the documented
condition `user.id === currentUser?.id` is false there; in fact the button of
every row is disabled, whoever is logged in. -/
theorem AdminPanel_delete_button_always_disabled :
    (AdminPanel.usersTableDeleteButton (some ⟨"u1", "Ada", "ada@example.com", "ADMIN"⟩)
        ⟨"u2", "Rita", "rita@example.com", "READER"⟩).disabled = true
    ∧ AdminPanel.documentedDeleteDisabled (some ⟨"u1", "Ada", "ada@example.com", "ADMIN"⟩)
        ⟨"u2", "Rita", "rita@example.com", "READER"⟩ = false
    ∧ (∀ (currentUser : Option User) (user : User),
        (AdminPanel.usersTableDeleteButton currentUser user).disabled = true
          ∧ (AdminPanel.usersTableDeleteButton currentUser user).onClick
              = (user.id, user.name, user.email)) := by
  refine ⟨by simp [AdminPanel.usersTableDeleteButton], by decide, ?_⟩
  intro currentUser user
  simp [AdminPanel.usersTableDeleteButton]

/-! ## Image selection -/

/-- Reading back a key that `{ ...o, [key]: value }` overwrote. -/
theorem objGet_map_of_any (o : List (String × String)) (key value : String)
    (h : (o.any (fun kv => kv.1 == key)) = true) :
    objGet (o.map (fun kv => if kv.1 == key then (kv.1, value) else kv)) key = some value := by
  induction o with
  | nil => simp at h
  | cons kv rest ih =>
    by_cases hk : kv.1 = key
    · simp [objGet, hk]
    · have hrest : (rest.any (fun kv => kv.1 == key)) = true := by
        simpa [hk] using h
      have h2 := ih hrest
      simp only [objGet] at h2 ⊢
      simp only [List.map_cons]
      have hk2 : (kv.1 == key) = false := by simpa using hk
      rw [hk2]
      simp only [Bool.false_eq_true, if_false]
      rw [List.find?_cons_of_neg _ (by simp [hk])]
      exact h2

/-- Reading back a key that `{ ...o, [key]: value }` added. -/
theorem objGet_append_of_not_any (o : List (String × String)) (key value : String)
    (h : (o.any (fun kv => kv.1 == key)) = false) :
    objGet (o ++ [(key, value)]) key = some value := by
  induction o with
  | nil => simp [objGet]
  | cons kv rest ih =>
    have hk : ¬ kv.1 = key := by
      intro hk
      simp [hk] at h
    have hrest : (rest.any (fun kv => kv.1 == key)) = false := by
      simpa [hk] using h
    have h2 := ih hrest
    simp only [objGet] at h2 ⊢
    rw [List.cons_append, List.find?_cons_of_neg _ (by simp [hk])]
    exact h2

/-- Reading back the key just written by `{ ...o, [key]: value }`. -/
theorem objGet_objSet (o : List (String × String)) (key value : String) :
    objGet (objSet o key value) key = some value := by
  unfold objSet
  by_cases h : (o.any (fun kv => kv.1 == key)) = true
  · rw [if_pos h]
    exact objGet_map_of_any o key value h
  · rw [if_neg h]
    exact objGet_append_of_not_any o key value (Bool.eq_false_iff.2 h)

/-- C17, as stated, fails at a PNG of exactly 5 MB: the size is not below
5*1024*1024 bytes, yet `handleImageChange` of `CreatePost` and of `EditPost`
both accept the file as the post image; one byte more is rejected with
"Image must be smaller than 5MB" and leaves image and preview untouched. -/
theorem handleImageChange_accepts_exactly_5MB :
    ¬ ((⟨"photo.png", "image/png", 5242880⟩ : File).size < 5 * 1024 * 1024)
    ∧ (CreatePost.handleImageChange (fun f => "data:" ++ f.name)
        (some ⟨"photo.png", "image/png", 5242880⟩) ⟨none, none, []⟩).image
        = some ⟨"photo.png", "image/png", 5242880⟩
    ∧ (EditPost.handleImageChange (fun f => "data:" ++ f.name)
        (some ⟨"photo.png", "image/png", 5242880⟩) ⟨none, none, none, []⟩).image
        = some ⟨"photo.png", "image/png", 5242880⟩
    ∧ CreatePost.handleImageChange (fun f => "data:" ++ f.name)
        (some ⟨"photo.png", "image/png", 5242881⟩) ⟨none, none, []⟩
        = ⟨none, none, [("image", "Image must be smaller than 5MB")]⟩
    ∧ EditPost.handleImageChange (fun f => "data:" ++ f.name)
        (some ⟨"photo.png", "image/png", 5242881⟩) ⟨none, none, none, []⟩
        = ⟨none, none, none, [("image", "Image must be smaller than 5MB")]⟩ := by
  refine ⟨by decide, ?_, ?_, ?_, ?_⟩ <;> decide

/-- C17 (amended): `handleImageChange`, in `CreatePost` and in `EditPost`,
accepts a file as the post image exactly when its MIME type starts with
"image/" and its size is at most 5 MB (`size <= 5*1024*1024` bytes); it then
stores the file, clears `errors.image` and shows the preview.  A file of
another type is rejected with "Please select an image file", an image above
5 MB with "Image must be smaller than 5MB"; a rejected file sets
`errors.image` and leaves the selected image and the preview as they were. -/
theorem handleImageChange_accepts_at_most_5MB (readAsDataURL : File → String) (f : File)
    (s : CreatePost.ImageState) (t : EditPost.ImageState) :
    ((startsWith f.type "image/" = true ∧ f.size ≤ 5 * 1024 * 1024) →
      CreatePost.handleImageChange readAsDataURL (some f) s
          = ⟨some f, some (readAsDataURL f), objSet s.errors "image" ""⟩
      ∧ EditPost.handleImageChange readAsDataURL (some f) t
          = ⟨some f, some (readAsDataURL f), t.currentImageUrl, objSet t.errors "image" ""⟩)
    ∧ (startsWith f.type "image/" = false →
      CreatePost.handleImageChange readAsDataURL (some f) s
          = ⟨s.image, s.imagePreview, objSet s.errors "image" "Please select an image file"⟩
      ∧ EditPost.handleImageChange readAsDataURL (some f) t
          = ⟨t.image, t.imagePreview, t.currentImageUrl,
              objSet t.errors "image" "Please select an image file"⟩)
    ∧ (startsWith f.type "image/" = true → 5 * 1024 * 1024 < f.size →
      CreatePost.handleImageChange readAsDataURL (some f) s
          = ⟨s.image, s.imagePreview, objSet s.errors "image" "Image must be smaller than 5MB"⟩
      ∧ EditPost.handleImageChange readAsDataURL (some f) t
          = ⟨t.image, t.imagePreview, t.currentImageUrl,
              objSet t.errors "image" "Image must be smaller than 5MB"⟩)
    ∧ (∀ (o : List (String × String)) (message : String),
        objGet (objSet o "image" message) "image" = some message) := by
  refine ⟨?_, ?_, ?_, fun o message => objGet_objSet o "image" message⟩
  · rintro ⟨ht, hs⟩
    have hs2 : ¬ (5 * 1024 * 1024 < f.size) := by omega
    simp [CreatePost.handleImageChange, EditPost.handleImageChange, ht, hs2]
  · intro ht
    simp [CreatePost.handleImageChange, EditPost.handleImageChange, ht]
  · intro ht hs
    simp [CreatePost.handleImageChange, EditPost.handleImageChange, ht, hs]

/-- Witness of C17 (amended): a PNG of exactly 5 MB is accepted, a PDF is
rejected. -/
theorem handleImageChange_accepts_at_most_5MB_witness :
    CreatePost.handleImageChange (fun f => "data:" ++ f.name)
        (some ⟨"photo.png", "image/png", 5242880⟩) ⟨none, none, []⟩
      = ⟨some ⟨"photo.png", "image/png", 5242880⟩, some "data:photo.png", [("image", "")]⟩
    ∧ EditPost.handleImageChange (fun f => "data:" ++ f.name)
        (some ⟨"cv.pdf", "application/pdf", 1000⟩) ⟨none, none, none, []⟩
      = ⟨none, none, none, [("image", "Please select an image file")]⟩ :=
  ⟨((handleImageChange_accepts_at_most_5MB (fun f => "data:" ++ f.name)
      ⟨"photo.png", "image/png", 5242880⟩ ⟨none, none, []⟩ ⟨none, none, none, []⟩).1
      ⟨by decide, by decide⟩).1,
   ((handleImageChange_accepts_at_most_5MB (fun f => "data:" ++ f.name)
      ⟨"cv.pdf", "application/pdf", 1000⟩ ⟨none, none, []⟩ ⟨none, none, none, []⟩).2.1
      (by decide)).2⟩


/-! ## useApi.makeRequest: messages, bookkeeping, payload -/

/-- The hook state after any completed call: `loading` is false and `error`
holds the message exactly when the request was rejected. -/
theorem makeRequest_final_state {δ : Type} (apiBaseUrl : String)
    (axios : useApi.Config → useApi.AxiosResult δ) (method endpoint : String)
    (data : JsValue) (options : useApi.Options) (s : useApi.HookState) :
    useApi.run s (useApi.makeRequest apiBaseUrl axios method endpoint data options).1 =
      match axios (useApi.requestConfig apiBaseUrl method endpoint data options) with
      | useApi.AxiosResult.resolved _ => ⟨false, none⟩
      | useApi.AxiosResult.rejected err => ⟨false, some (useApi.errorMessage err)⟩ := by
  cases h : axios (useApi.requestConfig apiBaseUrl method endpoint data options) with
  | resolved d =>
    rw [makeRequest_resolved apiBaseUrl axios method endpoint data options d h]
    simp [useApi.run, useApi.Effect.apply]
  | rejected err =>
    rw [makeRequest_rejected apiBaseUrl axios method endpoint data options err h]
    simp [useApi.run, useApi.Effect.apply]

/-- C18 (error message precedence): when the request is rejected with `err`,
`makeRequest` sets the error state to m and throws an Error with the same
message m, where m is `err.response.data.error` when present and non-empty,
otherwise `err.message` when non-empty, otherwise "Something went wrong"; when
the request is resolved it returns `response.data` and the error state is
null. -/
theorem makeRequest_error_message_precedence {δ : Type} (apiBaseUrl : String)
    (axios : useApi.Config → useApi.AxiosResult δ) (method endpoint : String)
    (data : JsValue) (options : useApi.Options) (s : useApi.HookState) :
    (∀ err, axios (useApi.requestConfig apiBaseUrl method endpoint data options)
        = useApi.AxiosResult.rejected err →
      (useApi.makeRequest apiBaseUrl axios method endpoint data options).2
          = useApi.Outcome.thrown (useApi.errorMessage err)
      ∧ (useApi.run s (useApi.makeRequest apiBaseUrl axios method endpoint data options).1).error
          = some (useApi.errorMessage err)
      ∧ (∀ m, (err.response.bind useApi.ErrorResponse.data).bind useApi.ErrorData.error
            = some m → m ≠ "" → useApi.errorMessage err = m)
      ∧ (truthyProp ((err.response.bind useApi.ErrorResponse.data).bind
            useApi.ErrorData.error) = false →
          ∀ m, err.message = some m → m ≠ "" → useApi.errorMessage err = m)
      ∧ (truthyProp ((err.response.bind useApi.ErrorResponse.data).bind
            useApi.ErrorData.error) = false →
          truthyProp err.message = false →
          useApi.errorMessage err = "Something went wrong"))
    ∧ (∀ d, axios (useApi.requestConfig apiBaseUrl method endpoint data options)
        = useApi.AxiosResult.resolved d →
      (useApi.makeRequest apiBaseUrl axios method endpoint data options).2
          = useApi.Outcome.returned d
      ∧ (useApi.run s (useApi.makeRequest apiBaseUrl axios method endpoint data options).1).error
          = none
      ∧ ∀ m, useApi.Effect.setError (some m)
          ∉ (useApi.makeRequest apiBaseUrl axios method endpoint data options).1) := by
  constructor
  · intro err h
    refine ⟨?_, ?_, ?_, ?_, ?_⟩
    · rw [makeRequest_rejected apiBaseUrl axios method endpoint data options err h]
    · rw [makeRequest_final_state, h]
    · intro m hm hne
      simp [useApi.errorMessage, orElse, hm, truthyStr, hne]
    · intro hapi m hm hne
      unfold useApi.errorMessage
      cases hx : (err.response.bind useApi.ErrorResponse.data).bind useApi.ErrorData.error with
      | none => simp [orElse, hm, truthyStr, hne]
      | some a =>
        rw [hx] at hapi
        have ha : a = "" := by simpa [truthyProp, truthyStr] using hapi
        simp [orElse, hm, truthyStr, hne, ha]
    · intro hapi hmsg
      unfold useApi.errorMessage
      cases hx : (err.response.bind useApi.ErrorResponse.data).bind useApi.ErrorData.error <;>
        cases hy : err.message <;>
        simp_all [orElse, truthyProp, truthyStr]
  · intro d h
    refine ⟨?_, ?_, ?_⟩
    · rw [makeRequest_resolved apiBaseUrl axios method endpoint data options d h]
    · rw [makeRequest_final_state, h]
    · intro m
      rw [makeRequest_resolved apiBaseUrl axios method endpoint data options d h]
      simp

/-- Witness of C18: the API error field wins over `err.message`; without a
response the message of the error is used. -/
theorem makeRequest_error_message_precedence_witness :
    useApi.errorMessage ⟨some ⟨400, some ⟨some "Invalid credentials"⟩⟩,
        some "Request failed with status code 400"⟩ = "Invalid credentials"
    ∧ useApi.errorMessage ⟨none, some "Network Error"⟩ = "Network Error" :=
  ⟨((makeRequest_error_message_precedence "http://localhost:5000/api"
      (fun _ => (useApi.AxiosResult.rejected
        ⟨some ⟨400, some ⟨some "Invalid credentials"⟩⟩,
          some "Request failed with status code 400"⟩ : useApi.AxiosResult Unit))
      "post" "/comments" JsValue.null useApi.Options.empty useApi.HookState.initial).1
      ⟨some ⟨400, some ⟨some "Invalid credentials"⟩⟩,
        some "Request failed with status code 400"⟩ rfl).2.2.1
      "Invalid credentials" rfl (by decide),
   ((makeRequest_error_message_precedence "http://localhost:5000/api"
      (fun _ => (useApi.AxiosResult.rejected
        ⟨none, some "Network Error"⟩ : useApi.AxiosResult Unit))
      "post" "/comments" JsValue.null useApi.Options.empty useApi.HookState.initial).1
      ⟨none, some "Network Error"⟩ rfl).2.2.2.1 rfl "Network Error" rfl (by decide)⟩


/-- The hook state after one completed call does not depend on the state
before it. -/
theorem makeRequest_call_state {δ : Type} (apiBaseUrl : String) (c : useApi.Call δ)
    (s : useApi.HookState) :
    (useApi.run s (useApi.makeRequest apiBaseUrl (fun _ => c.settled) c.method c.endpoint
        c.data c.options).1).loading = false
    ∧ ((useApi.run s (useApi.makeRequest apiBaseUrl (fun _ => c.settled) c.method c.endpoint
        c.data c.options).1).error ≠ none ↔ c.failed = true) := by
  rw [makeRequest_final_state]
  cases h : c.settled <;> simp [useApi.Call.failed, h]

/-- C19 (loading/error bookkeeping): every call of `makeRequest` starts with
`setLoading(true)` and `setError(null)` and ends with `setLoading(false)`,
so `loading` is false once the call has completed, whether it returned or
threw; after any sequence of completed, non-overlapping calls starting from
the initial hook state, `loading` is false and `error` is non-null if and
only if the last call failed. -/
theorem makeRequest_loading_error_bookkeeping {δ : Type} (apiBaseUrl : String) :
    (∀ (axios : useApi.Config → useApi.AxiosResult δ) (method endpoint : String)
        (data : JsValue) (options : useApi.Options),
      (useApi.makeRequest apiBaseUrl axios method endpoint data options).1.take 2
          = [useApi.Effect.setLoading true, useApi.Effect.setError none]
      ∧ (useApi.makeRequest apiBaseUrl axios method endpoint data options).1.getLast?
          = some (useApi.Effect.setLoading false)
      ∧ ∀ s, (useApi.run s
          (useApi.makeRequest apiBaseUrl axios method endpoint data options).1).loading = false)
    ∧ (∀ calls : List (useApi.Call δ),
      (useApi.runCalls apiBaseUrl useApi.HookState.initial calls).loading = false
      ∧ ((useApi.runCalls apiBaseUrl useApi.HookState.initial calls).error ≠ none
          ↔ ∃ c, calls.getLast? = some c ∧ c.failed = true)) := by
  constructor
  · intro axios method endpoint data options
    refine ⟨?_, ?_, ?_⟩
    · cases h : axios (useApi.requestConfig apiBaseUrl method endpoint data options) <;>
        simp [useApi.makeRequest, h]
    · cases h : axios (useApi.requestConfig apiBaseUrl method endpoint data options) <;>
        simp [useApi.makeRequest, h]
    · intro s
      rw [makeRequest_final_state]
      cases h : axios (useApi.requestConfig apiBaseUrl method endpoint data options) <;> rfl
  · intro calls
    induction calls using List.reverseRecOn with
    | nil => simp [useApi.runCalls, useApi.HookState.initial]
    | append_singleton l c _ =>
      have hstep : useApi.runCalls apiBaseUrl useApi.HookState.initial (l ++ [c])
          = useApi.run (useApi.runCalls apiBaseUrl useApi.HookState.initial l)
              (useApi.makeRequest apiBaseUrl (fun _ => c.settled) c.method c.endpoint
                c.data c.options).1 := by
        simp [useApi.runCalls, List.foldl_append]
      rw [hstep, List.getLast?_concat]
      have h := makeRequest_call_state apiBaseUrl c
        (useApi.runCalls apiBaseUrl useApi.HookState.initial l)
      refine ⟨h.1, ?_⟩
      rw [h.2]
      simp

/-- C20 (payload placement): for a truthy `data` argument the config handed
to axios has `params = data` when the method is "get" up to letter case (the
`data` key is then left as `options` gave it), and `data = data` otherwise
(the `params` key is then left as `options` gave it), whatever `options` holds
under these keys; for a falsy `data` argument both keys are as in `options`;
the url is the one in `options` when present, else `API_BASE_URL` followed by
the endpoint; and this config is the one passed to axios. -/
theorem makeRequest_payload_placement (apiBaseUrl method endpoint : String)
    (data : JsValue) (options : useApi.Options) :
    (data.truthy = true → toLowerCase method = "get" →
      (useApi.requestConfig apiBaseUrl method endpoint data options).params = some data
      ∧ (useApi.requestConfig apiBaseUrl method endpoint data options).data = options.data)
    ∧ (data.truthy = true → toLowerCase method ≠ "get" →
      (useApi.requestConfig apiBaseUrl method endpoint data options).data = some data
      ∧ (useApi.requestConfig apiBaseUrl method endpoint data options).params = options.params)
    ∧ (data.truthy = false →
      (useApi.requestConfig apiBaseUrl method endpoint data options).params = options.params
      ∧ (useApi.requestConfig apiBaseUrl method endpoint data options).data = options.data)
    ∧ (options.url = none →
      (useApi.requestConfig apiBaseUrl method endpoint data options).url
        = apiBaseUrl ++ endpoint)
    ∧ (∀ u, options.url = some u →
      (useApi.requestConfig apiBaseUrl method endpoint data options).url = u)
    ∧ (∀ (δ : Type) (axios : useApi.Config → useApi.AxiosResult δ),
      useApi.Effect.axios (useApi.requestConfig apiBaseUrl method endpoint data options)
        ∈ (useApi.makeRequest apiBaseUrl axios method endpoint data options).1) := by
  refine ⟨?_, ?_, ?_, ?_, ?_, ?_⟩
  · intro ht hg
    simp [useApi.requestConfig, ht, hg]
  · intro ht hg
    simp [useApi.requestConfig, ht, hg]
  · intro ht
    simp [useApi.requestConfig, ht]
  · intro hu
    by_cases ht : data.truthy = true <;> by_cases hg : toLowerCase method = "get" <;>
      simp [useApi.requestConfig, ht, hg, hu]
  · intro u hu
    by_cases ht : data.truthy = true <;> by_cases hg : toLowerCase method = "get" <;>
      simp [useApi.requestConfig, ht, hg, hu]
  · intro δ axios
    cases h : axios (useApi.requestConfig apiBaseUrl method endpoint data options) <;>
      simp [useApi.makeRequest, h]

/-- Witness of C20: a "GET" with an object payload sends it as query params,
also against a `params` key in `options`; a "post" sends it as the body. -/
theorem makeRequest_payload_placement_witness :
    (useApi.requestConfig (API_BASE_URL none) "GET" "/posts"
        (JsValue.obj [("page", "1")])
        ⟨none, none, some (JsValue.obj [("page", "7")]), none, none⟩).params
      = some (JsValue.obj [("page", "1")])
    ∧ (useApi.requestConfig (API_BASE_URL none) "post" "/comments"
        (JsValue.obj [("content", "hi")]) useApi.Options.empty).data
      = some (JsValue.obj [("content", "hi")])
    ∧ (useApi.requestConfig (API_BASE_URL none) "post" "/comments"
        (JsValue.obj [("content", "hi")]) useApi.Options.empty).url
      = "http://localhost:5000/api/comments" :=
  ⟨((makeRequest_payload_placement (API_BASE_URL none) "GET" "/posts"
      (JsValue.obj [("page", "1")])
      ⟨none, none, some (JsValue.obj [("page", "7")]), none, none⟩).1 rfl (by decide)).1,
   ((makeRequest_payload_placement (API_BASE_URL none) "post" "/comments"
      (JsValue.obj [("content", "hi")]) useApi.Options.empty).2.1 rfl (by decide)).1,
   by
    have h := (makeRequest_payload_placement (API_BASE_URL none) "post" "/comments"
      (JsValue.obj [("content", "hi")]) useApi.Options.empty).2.2.2.1 rfl
    rw [h]
    decide⟩


/-! ## Pagination -/

/-- Below `2^53` rounding changes nothing. -/
theorem Pagination_roundNat_of_lt (a : Nat) (h : a < 2 ^ 53) : Pagination.roundNat a = a := by
  unfold Pagination.roundNat
  rw [if_pos h]

/-- The numbers from `2^53` up to `2^54` have 54 binary digits. -/
theorem Pagination_size_binade (a : Nat) (h1 : 2 ^ 53 ≤ a) (h2 : a < 2 ^ 54) :
    a.size = 54 := by
  have h3 : a.size ≤ 54 := Nat.size_le.2 h2
  have h4 : 53 < a.size := Nat.lt_size.2 h1
  omega

/-- From `2^53` up to `2^54` doubles are the even integers: an odd integer is
a tie and goes to the neighbour that is a multiple of four. -/
theorem Pagination_roundNat_binade (a : Nat) (h1 : 2 ^ 53 ≤ a) (h2 : a < 2 ^ 54) :
    Pagination.roundNat a
      = if a % 2 = 0 then a else if (a / 2) % 2 = 0 then a - 1 else a + 1 := by
  have hs := Pagination_size_binade a h1 h2
  have hn : ¬ a < 2 ^ 53 := by omega
  simp only [Pagination.roundNat, hn, if_false, hs]
  norm_num
  split_ifs <;> omega

/-- Integers of magnitude at most `2^53` are doubles. -/
theorem Pagination_round_exact (n : Int) (h1 : -9007199254740992 ≤ n)
    (h2 : n ≤ 9007199254740992) : Pagination.roundToDouble n = n := by
  have key : Pagination.roundNat n.natAbs = n.natAbs := by
    by_cases h : n.natAbs < 2 ^ 53
    · exact Pagination_roundNat_of_lt _ h
    · have h3 : n.natAbs = 2 ^ 53 := by omega
      rw [Pagination_roundNat_binade _ (by omega) (by omega), h3]
      norm_num
  unfold Pagination.roundToDouble
  rw [key]
  split_ifs <;> omega

/-- Rounding of the integers from `2^53` up to `2^54`. -/
theorem Pagination_round_binade (n : Int) (h1 : 9007199254740992 ≤ n)
    (h2 : n < 18014398509481984) :
    Pagination.roundToDouble n
      = if n % 2 = 0 then n else if (n / 2) % 2 = 0 then n - 1 else n + 1 := by
  obtain ⟨a, rfl⟩ := Int.eq_ofNat_of_zero_le (show (0 : Int) ≤ n by omega)
  have hr := Pagination_roundNat_binade a (by omega) (by omega)
  have hneg : ¬ ((a : Int) < 0) := by omega
  simp only [Pagination.roundToDouble, hneg, if_false, Int.natAbs_ofNat, hr]
  split_ifs <;> omega

/-- Rounding keeps the sign: a result that is not positive stays so. -/
theorem Pagination_round_nonpos (n : Int) (h : n ≤ 0) : Pagination.roundToDouble n ≤ 0 := by
  unfold Pagination.roundToDouble
  split_ifs with hn
  · omega
  · have h0 : n = 0 := by omega
    subst h0
    simp [Pagination.roundNat]

/-- A positive exact result rounds to a positive double. -/
theorem Pagination_roundNat_pos (a : Nat) (h : 1 ≤ a) : 1 ≤ Pagination.roundNat a := by
  by_cases hlt : a < 2 ^ 53
  · rw [Pagination_roundNat_of_lt a hlt]
    exact h
  · have hq : 2 ^ (a.size - 53) ≤ a := by
      have h53 : 53 < a.size := Nat.lt_size.2 (by omega)
      have h1 : 2 ^ (a.size - 1) ≤ a := Nat.lt_size.1 (by omega)
      have h2 : 2 ^ (a.size - 53) ≤ 2 ^ (a.size - 1) :=
        Nat.pow_le_pow_right (by decide) (by omega)
      omega
    have hqpos : 0 < 2 ^ (a.size - 53) := Nat.two_pow_pos _
    have hd : 0 < a / 2 ^ (a.size - 53) := Nat.div_pos hq hqpos
    have hl : 1 ≤ a / 2 ^ (a.size - 53) * 2 ^ (a.size - 53) := Nat.mul_pos hd hqpos
    simp only [Pagination.roundNat, hlt, if_false]
    split_ifs <;> omega

/-- Rounding never passes a double that lies above the exact result. -/
theorem Pagination_roundNat_le (a r : Nat) (har : a ≤ r) (hr : Pagination.roundNat r = r) :
    Pagination.roundNat a ≤ r := by
  by_cases hlt : a < 2 ^ 53
  · rw [Pagination_roundNat_of_lt a hlt]
    exact har
  · have hrlt : ¬ r < 2 ^ 53 := by omega
    have hqpos : 0 < 2 ^ (a.size - 53) := Nat.two_pow_pos _
    have hdvd : 2 ^ (a.size - 53) ∣ 2 ^ (r.size - 53) :=
      Nat.pow_dvd_pow 2 (Nat.sub_le_sub_right (Nat.size_le_size har) 53)
    have hrmul : 2 ^ (r.size - 53) ∣ r := by
      have hmul : 2 ^ (r.size - 53) ∣ Pagination.roundNat r := by
        simp only [Pagination.roundNat, hrlt, if_false]
        split_ifs <;>
          first
          | exact Dvd.intro_left _ rfl
          | exact Nat.dvd_add (Dvd.intro_left _ rfl) (dvd_refl _)
      rw [hr] at hmul
      exact hmul
    obtain ⟨m, hm⟩ := dvd_trans hdvd hrmul
    generalize hq : 2 ^ (a.size - 53) = q at hqpos hm
    have hmod := Nat.mod_lt a hqpos
    have hdiv := Nat.div_add_mod a q
    have hle := Nat.div_mul_le_self a q
    by_cases hrem : a % q = 0
    · have hexact : a / q * q = a := by
        have := Nat.div_add_mod a q
        rw [hrem, Nat.add_zero, Nat.mul_comm] at this
        exact this
      have : Pagination.roundNat a = a := by
        simp only [Pagination.roundNat, hlt, if_false, hq, hrem, hexact]
        simp [hqpos]
      omega
    · have hlt2 : a / q < m := by
        rw [Nat.div_lt_iff_lt_mul hqpos]
        have hne : a ≠ r := by
          intro e
          apply hrem
          rw [e, hm]
          exact Nat.mul_mod_right q m
        rw [Nat.mul_comm] at hm
        omega
      have hup : a / q * q + q ≤ r := by
        have h1 : (a / q + 1) * q ≤ m * q := Nat.mul_le_mul_right q hlt2
        rw [Nat.mul_comm q m] at hm
        rw [Nat.add_mul, Nat.one_mul] at h1
        omega
      have hbound : Pagination.roundNat a ≤ a / q * q + q := by
        simp only [Pagination.roundNat, hlt, if_false, hq]
        split_ifs <;> omega
      omega

/-- A positive exact result rounds to a positive double. -/
theorem Pagination_round_pos (n : Int) (h : 1 ≤ n) : 1 ≤ Pagination.roundToDouble n := by
  obtain ⟨a, rfl⟩ := Int.eq_ofNat_of_zero_le (show (0 : Int) ≤ n by omega)
  have ha := Pagination_roundNat_pos a (by omega)
  have hneg : ¬ ((a : Int) < 0) := by omega
  simp only [Pagination.roundToDouble, hneg, if_false, Int.natAbs_ofNat]
  omega

/-- Rounding a result that is not negative never passes a double above it. -/
theorem Pagination_round_le (n r : Int) (h0 : 0 ≤ n) (h : n ≤ r)
    (hr : Pagination.roundToDouble r = r) : Pagination.roundToDouble n ≤ r := by
  obtain ⟨a, rfl⟩ := Int.eq_ofNat_of_zero_le h0
  obtain ⟨b, rfl⟩ := Int.eq_ofNat_of_zero_le (show (0 : Int) ≤ r by omega)
  have hnega : ¬ ((a : Int) < 0) := by omega
  have hnegb : ¬ ((b : Int) < 0) := by omega
  simp only [Pagination.roundToDouble, hnegb, if_false, Int.natAbs_ofNat] at hr
  simp only [Pagination.roundToDouble, hnega, if_false, Int.natAbs_ofNat]
  have hb : Pagination.roundNat b = b := by exact_mod_cast hr
  have := Pagination_roundNat_le a b (by omega) hb
  omega

/-- The first value of `startPage` for a current page among the safe
integers. -/
theorem Pagination_initialStartPage_safe (c : Int) (h1 : 1 ≤ c)
    (h2 : c ≤ Pagination.maxSafeInteger) :
    Pagination.initialStartPage c = max 1 (c - 2) := by
  simp only [Pagination.maxSafeInteger] at h2
  have e : Pagination.roundToDouble (c - 2) = c - 2 :=
    Pagination_round_exact _ (by omega) (by omega)
  simp only [Pagination.initialStartPage, Pagination.sub, Pagination.maxVisiblePages]
  norm_num
  rw [e]

/-- The value of `endPage` among the safe integers. -/
theorem Pagination_endPage_safe (c t : Int) (h1 : 1 ≤ c) (h2 : c ≤ Pagination.maxSafeInteger)
    (h4 : t ≤ Pagination.maxSafeInteger) :
    Pagination.endPage c t = min t (max 1 (c - 2) + 4) := by
  have hs := Pagination_initialStartPage_safe c h1 h2
  simp only [Pagination.maxSafeInteger] at h2 h4
  simp only [Pagination.endPage, Pagination.add, Pagination.sub, Pagination.maxVisiblePages, hs]
  by_cases hlow : max 1 (c - 2) + 5 ≤ 9007199254740992
  · have e1 : Pagination.roundToDouble (max 1 (c - 2) + 5) = max 1 (c - 2) + 5 :=
      Pagination_round_exact _ (by omega) hlow
    rw [e1]
    have e2 : Pagination.roundToDouble (max 1 (c - 2) + 5 - 1) = max 1 (c - 2) + 5 - 1 :=
      Pagination_round_exact _ (by omega) (by omega)
    rw [e2]
    omega
  · have e1 := Pagination_round_binade (max 1 (c - 2) + 5) (by omega) (by omega)
    generalize Pagination.roundToDouble (max 1 (c - 2) + 5) = A at e1 ⊢
    have hA : 9007199254740992 ≤ A ∧ A ≤ 9007199254740996 := by
      split_ifs at e1 <;> omega
    by_cases hA1 : A - 1 ≤ 9007199254740992
    · have e2 : Pagination.roundToDouble (A - 1) = A - 1 :=
        Pagination_round_exact _ (by omega) hA1
      rw [e2]
      omega
    · have e2 := Pagination_round_binade (A - 1) (by omega) (by omega)
      generalize Pagination.roundToDouble (A - 1) = X at e2 ⊢
      split_ifs at e2 <;> omega

/-- The final value of `startPage` among the safe integers. -/
theorem Pagination_startPage_safe (c t : Int) (h1 : 1 ≤ c) (h2 : c ≤ Pagination.maxSafeInteger)
    (h3 : 1 ≤ t) (h4 : t ≤ Pagination.maxSafeInteger) :
    Pagination.startPage c t
      = if min t (max 1 (c - 2) + 4) - max 1 (c - 2) + 1 < 5 then
          max 1 (min t (max 1 (c - 2) + 4) - 4)
        else max 1 (c - 2) := by
  have hs := Pagination_initialStartPage_safe c h1 h2
  have he := Pagination_endPage_safe c t h1 h2 h4
  simp only [Pagination.maxSafeInteger] at h2 h4
  simp only [Pagination.startPage, Pagination.add, Pagination.sub, Pagination.maxVisiblePages,
    hs, he]
  have e1 : Pagination.roundToDouble (min t (max 1 (c - 2) + 4) - max 1 (c - 2))
      = min t (max 1 (c - 2) + 4) - max 1 (c - 2) :=
    Pagination_round_exact _ (by omega) (by omega)
  have e2 : Pagination.roundToDouble (min t (max 1 (c - 2) + 4) - max 1 (c - 2) + 1)
      = min t (max 1 (c - 2) + 4) - max 1 (c - 2) + 1 :=
    Pagination_round_exact _ (by omega) (by omega)
  have e3 : Pagination.roundToDouble (min t (max 1 (c - 2) + 4) - 5)
      = min t (max 1 (c - 2) + 4) - 5 :=
    Pagination_round_exact _ (by omega) (by omega)
  have e4 : Pagination.roundToDouble (min t (max 1 (c - 2) + 4) - 5 + 1)
      = min t (max 1 (c - 2) + 4) - 5 + 1 :=
    Pagination_round_exact _ (by omega) (by omega)
  rw [e1, e2, e3, e4]
  split_ifs <;> omega

/-- The loop ends within `endPage - i + 1` iterations when `endPage` is a
safe integer, with the consecutive integers from `i` to `endPage` pushed. -/
theorem Pagination_loop_safe (e : Int) (he : e ≤ Pagination.maxSafeInteger) :
    ∀ (n fuel : Nat) (i : Int) (acc : List Int), -9007199254740992 ≤ i →
      (e - i + 1).toNat = n → n ≤ fuel →
      Pagination.loop e fuel i acc
        = some (acc ++ List.map (fun k : Nat => i + (k : Int)) (List.range n)) := by
  simp only [Pagination.maxSafeInteger] at he
  intro n
  induction n with
  | zero =>
    intro fuel i acc _ hn _
    have hgt : ¬ i ≤ e := by omega
    cases fuel <;> simp [Pagination.loop, hgt]
  | succ n ih =>
    intro fuel i acc hi hn hfuel
    have hle : i ≤ e := by omega
    obtain ⟨f, rfl⟩ : ∃ f, fuel = f + 1 := ⟨fuel - 1, by omega⟩
    have hadd : Pagination.add i 1 = i + 1 :=
      Pagination_round_exact _ (by omega) (by omega)
    simp only [Pagination.loop, hle, if_true, hadd]
    rw [ih f (i + 1) (acc ++ [i]) (by omega) (by omega) (by omega)]
    rw [List.range_succ_eq_map]
    simp only [List.map_cons, List.map_map, List.append_assoc, List.singleton_append,
      Nat.cast_zero, add_zero]
    congr 3
    apply List.map_congr_left
    intro k _
    simp only [Function.comp, Nat.cast_succ]
    omega

/-- The final `startPage` is at least 1, whatever the arguments. -/
theorem Pagination_startPage_pos (c t : Int) : 1 ≤ Pagination.startPage c t := by
  unfold Pagination.startPage Pagination.initialStartPage
  split_ifs <;> omega

/-- The value `endPage` never exceeds `total`. -/
theorem Pagination_endPage_le (c t : Int) : Pagination.endPage c t ≤ t := by
  unfold Pagination.endPage
  omega

/-- Every page the loop pushes lies between 1 and `endPage`, whenever the
loop ends. -/
theorem Pagination_loop_bounds (e : Int) :
    ∀ (fuel : Nat) (i : Int) (acc l : List Int), 1 ≤ i →
      (∀ p ∈ acc, 1 ≤ p ∧ p ≤ e) → Pagination.loop e fuel i acc = some l →
      ∀ p ∈ l, 1 ≤ p ∧ p ≤ e := by
  intro fuel
  induction fuel with
  | zero =>
    intro i acc l _ hacc hl
    by_cases h : i ≤ e
    · simp [Pagination.loop, h] at hl
    · simp only [Pagination.loop, h, if_false, Option.some.injEq] at hl
      subst hl
      exact hacc
  | succ f ih =>
    intro i acc l hi hacc hl
    by_cases h : i ≤ e
    · simp only [Pagination.loop, h, if_true] at hl
      refine ih (Pagination.add i 1) (acc ++ [i]) l ?_ ?_ hl
      · exact Pagination_round_pos _ (by omega)
      · intro p hp
        rcases List.mem_append.1 hp with hp | hp
        · exact hacc p hp
        · have : p = i := by simpa using hp
          subst this
          exact ⟨hi, h⟩
    · simp only [Pagination.loop, h, if_false, Option.some.injEq] at hl
      subst hl
      exact hacc

/-- Every listed page lies between 1 and `total`, whenever the loop ends. -/
theorem Pagination_pages_bounds (fuel : Nat) (c t : Int) (ps : List Int)
    (h : Pagination.pages fuel c t = some ps) : ∀ p ∈ ps, 1 ≤ p ∧ p ≤ t := by
  intro p hp
  have hb := Pagination_loop_bounds (Pagination.endPage c t) fuel (Pagination.startPage c t)
    [] ps (Pagination_startPage_pos c t) (by simp) h p hp
  have := Pagination_endPage_le c t
  omega

/-- For `total < 1` the loop body never runs: `pages` is empty and the
component returns `null`, with any fuel. -/
theorem Pagination_empty_of_total_lt_one (c t : Int) (h : t < 1) (fuel : Nat) :
    Pagination.pages fuel c t = some [] ∧ Pagination.render fuel c t = some none := by
  have hs := Pagination_startPage_pos c t
  have he := Pagination_endPage_le c t
  have hgt : ¬ Pagination.startPage c t ≤ Pagination.endPage c t := by omega
  have hp : Pagination.pages fuel c t = some [] := by
    unfold Pagination.pages
    cases fuel <;> simp [Pagination.loop, hgt]
  exact ⟨hp, by simp [Pagination.render, hp]⟩

/-- The length of a run of consecutive integers. -/
theorem Pagination_run_length (s e : Int) :
    (List.map (fun k : Nat => s + (k : Int)) (List.range (e - s + 1).toNat)).length
      = (e - s + 1).toNat := by
  simp

/-- The entries of a run of consecutive integers, by position. -/
theorem Pagination_run_getElem (s e : Int) (i : Nat) (hi : i < (e - s + 1).toNat) :
    (List.map (fun k : Nat => s + (k : Int)) (List.range (e - s + 1).toNat))[i]?
      = some (s + (i : Int)) := by
  simp [List.getElem?_map, List.getElem?_range hi]

/-- The members of a run of consecutive integers. -/
theorem Pagination_run_mem (s e p : Int) :
    p ∈ List.map (fun k : Nat => s + (k : Int)) (List.range (e - s + 1).toNat)
      ↔ (s ≤ p ∧ p ≤ e) := by
  simp only [List.mem_map, List.mem_range]
  constructor
  · rintro ⟨i, hi, rfl⟩
    omega
  · rintro ⟨h1, h2⟩
    refine ⟨(p - s).toNat, ?_, ?_⟩ <;> omega

/-- A run of consecutive integers has no repetition. -/
theorem Pagination_run_nodup (s e : Int) :
    (List.map (fun k : Nat => s + (k : Int)) (List.range (e - s + 1).toNat)).Nodup := by
  refine List.Nodup.map ?_ (List.nodup_range _)
  intro a b hab
  simpa using hab

/-- Among the safe integers the loop ends within five iterations and `pages`
is the run from `startPage` to `endPage`. -/
theorem Pagination_pages_safe (c t : Int) (h1 : 1 ≤ c) (h2 : c ≤ Pagination.maxSafeInteger)
    (h3 : 1 ≤ t) (h4 : t ≤ Pagination.maxSafeInteger) (fuel : Nat) (hf : 5 ≤ fuel) :
    Pagination.pages fuel c t
      = some (List.map (fun k : Nat => Pagination.startPage c t + (k : Int))
          (List.range (Pagination.endPage c t - Pagination.startPage c t + 1).toNat)) := by
  have hs := Pagination_startPage_safe c t h1 h2 h3 h4
  have he := Pagination_endPage_safe c t h1 h2 h4
  have hpos := Pagination_startPage_pos c t
  have hle := Pagination_endPage_le c t
  have hn : (Pagination.endPage c t - Pagination.startPage c t + 1).toNat ≤ fuel := by
    have : Pagination.endPage c t - Pagination.startPage c t + 1 ≤ 5 := by
      rw [hs, he]
      split_ifs <;> omega
    omega
  have := Pagination_loop_safe (Pagination.endPage c t) (by omega)
    (Pagination.endPage c t - Pagination.startPage c t + 1).toNat fuel
    (Pagination.startPage c t) [] (by omega) rfl hn
  simpa [Pagination.pages] using this

/-- The window for an in-range current page among the safe integers. -/
theorem Pagination_window_bounds (c t : Int) (h1 : 1 ≤ t) (h2 : 1 ≤ c) (h3 : c ≤ t)
    (h4 : t ≤ Pagination.maxSafeInteger) :
    1 ≤ Pagination.startPage c t
      ∧ Pagination.startPage c t ≤ c
      ∧ c ≤ Pagination.endPage c t
      ∧ Pagination.endPage c t ≤ t
      ∧ Pagination.endPage c t - Pagination.startPage c t + 1 = min 5 t
      ∧ (3 ≤ c → c ≤ t - 2 →
          Pagination.startPage c t = c - 2 ∧ Pagination.endPage c t = c + 2) := by
  rw [Pagination_startPage_safe c t h2 (by omega) h1 h4,
    Pagination_endPage_safe c t h2 (by omega) h4]
  split_ifs <;> omega

/-- At `2^53` the increment `i++` is lost: `2^53 + 1` rounds back to `2^53`. -/
theorem Pagination_add_two_pow_53 :
    Pagination.add 9007199254740992 1 = 9007199254740992 := by
  have h := Pagination_round_binade (9007199254740992 + 1) (by norm_num) (by norm_num)
  simpa [Pagination.add] using h

/-- The loop cannot leave `2^53`: `i++` gives `2^53` again. -/
theorem Pagination_loop_stuck (fuel : Nat) (acc : List Int) :
    Pagination.loop 9007199254740992 fuel 9007199254740992 acc = none := by
  have hadd := Pagination_add_two_pow_53
  induction fuel generalizing acc with
  | zero => simp [Pagination.loop]
  | succ f ih => simp [Pagination.loop, hadd, ih]

/-- With `endPage = 2^53` the loop started four pages below never ends. -/
theorem Pagination_loop_never_ends (fuel : Nat) :
    Pagination.loop 9007199254740992 fuel 9007199254740988 [] = none := by
  have a1 : Pagination.add 9007199254740988 1 = 9007199254740989 :=
    Pagination_round_exact _ (by norm_num) (by norm_num)
  have a2 : Pagination.add 9007199254740989 1 = 9007199254740990 :=
    Pagination_round_exact _ (by norm_num) (by norm_num)
  have a3 : Pagination.add 9007199254740990 1 = 9007199254740991 :=
    Pagination_round_exact _ (by norm_num) (by norm_num)
  have a4 : Pagination.add 9007199254740991 1 = 9007199254740992 :=
    Pagination_round_exact _ (by norm_num) (by norm_num)
  rcases fuel with _ | _ | _ | _ | _ | f <;>
    simp [Pagination.loop, a1, a2, a3, a4, Pagination_add_two_pow_53, Pagination_loop_stuck]

/-- The window computed for `current = total = 2^53`. -/
theorem Pagination_window_at_two_pow_53 :
    Pagination.endPage 9007199254740992 9007199254740992 = 9007199254740992
      ∧ Pagination.startPage 9007199254740992 9007199254740992 = 9007199254740988 := by
  have s0 : Pagination.initialStartPage 9007199254740992 = 9007199254740990 := by
    have e : Pagination.roundToDouble (9007199254740992 - 2) = 9007199254740990 :=
      Pagination_round_exact _ (by norm_num) (by norm_num)
    simp only [Pagination.initialStartPage, Pagination.sub, Pagination.maxVisiblePages]
    norm_num
    rw [show (9007199254740990 : Int) = 9007199254740992 - 2 by norm_num, e]
    norm_num
  have e1 : Pagination.roundToDouble (9007199254740990 + 5) = 9007199254740996 := by
    have h := Pagination_round_binade (9007199254740990 + 5) (by norm_num) (by norm_num)
    simpa using h
  have e2 : Pagination.roundToDouble (9007199254740996 - 1) = 9007199254740996 := by
    have h := Pagination_round_binade (9007199254740996 - 1) (by norm_num) (by norm_num)
    simpa using h
  have he : Pagination.endPage 9007199254740992 9007199254740992 = 9007199254740992 := by
    simp only [Pagination.endPage, Pagination.add, Pagination.sub, Pagination.maxVisiblePages,
      s0, e1, e2]
    norm_num
  have e3 : Pagination.roundToDouble (9007199254740992 - 9007199254740990) = 2 :=
    Pagination_round_exact _ (by norm_num) (by norm_num)
  have e4 : Pagination.roundToDouble (2 + 1) = 3 :=
    Pagination_round_exact _ (by norm_num) (by norm_num)
  have e5 : Pagination.roundToDouble (9007199254740992 - 5) = 9007199254740987 :=
    Pagination_round_exact _ (by norm_num) (by norm_num)
  have e6 : Pagination.roundToDouble (9007199254740987 + 1) = 9007199254740988 :=
    Pagination_round_exact _ (by norm_num) (by norm_num)
  refine ⟨he, ?_⟩
  simp only [Pagination.startPage, Pagination.add, Pagination.sub, Pagination.maxVisiblePages,
    s0, he, e3, e4, e5, e6]
  norm_num

/-- C21, as stated, fails beyond the safe integers.  With
`current = 2^53 - 2` and `total = 2^53 + 2` (both of them doubles, and
`3 <= current <= total - 2`) the component returns the five pages
`current-3 .. current+1`, not `current-2 .. current+2`, because
`startPage + maxVisiblePages` is rounded to `2^53`; with
`current = total = 2^53` the loop never ends, so no list is computed. -/
theorem Pagination_window_shape_counterexample :
    (Pagination.roundToDouble 9007199254740990 = 9007199254740990
      ∧ Pagination.roundToDouble 9007199254740994 = 9007199254740994
      ∧ (3 : Int) ≤ 9007199254740990 ∧ (9007199254740990 : Int) ≤ 9007199254740994 - 2)
    ∧ (∀ fuel, 5 ≤ fuel →
        Pagination.pages fuel 9007199254740990 9007199254740994
          = some [9007199254740990 - 3, 9007199254740990 - 2, 9007199254740990 - 1,
              9007199254740990, 9007199254740990 + 1])
    ∧ ([9007199254740990 - 3, 9007199254740990 - 2, 9007199254740990 - 1,
          9007199254740990, 9007199254740990 + 1]
        ≠ [(9007199254740990 : Int) - 2, 9007199254740990 - 1, 9007199254740990,
            9007199254740990 + 1, 9007199254740990 + 2])
    ∧ (∀ fuel, Pagination.pages fuel 9007199254740992 9007199254740992 = none) := by
  have s0 : Pagination.initialStartPage 9007199254740990 = 9007199254740988 := by
    have e : Pagination.roundToDouble (9007199254740990 - 2) = 9007199254740988 :=
      Pagination_round_exact _ (by norm_num) (by norm_num)
    simp only [Pagination.initialStartPage, Pagination.sub, Pagination.maxVisiblePages]
    norm_num
    rw [show (9007199254740988 : Int) = 9007199254740990 - 2 by norm_num, e]
    norm_num
  have e1 : Pagination.roundToDouble (9007199254740988 + 5) = 9007199254740992 := by
    have h := Pagination_round_binade (9007199254740988 + 5) (by norm_num) (by norm_num)
    simpa using h
  have e2 : Pagination.roundToDouble (9007199254740992 - 1) = 9007199254740991 :=
    Pagination_round_exact _ (by norm_num) (by norm_num)
  have he : Pagination.endPage 9007199254740990 9007199254740994 = 9007199254740991 := by
    simp only [Pagination.endPage, Pagination.add, Pagination.sub, Pagination.maxVisiblePages,
      s0, e1, e2]
    norm_num
  have e3 : Pagination.roundToDouble (9007199254740991 - 9007199254740988) = 3 :=
    Pagination_round_exact _ (by norm_num) (by norm_num)
  have e4 : Pagination.roundToDouble (3 + 1) = 4 :=
    Pagination_round_exact _ (by norm_num) (by norm_num)
  have e5 : Pagination.roundToDouble (9007199254740991 - 5) = 9007199254740986 :=
    Pagination_round_exact _ (by norm_num) (by norm_num)
  have e6 : Pagination.roundToDouble (9007199254740986 + 1) = 9007199254740987 :=
    Pagination_round_exact _ (by norm_num) (by norm_num)
  have hs : Pagination.startPage 9007199254740990 9007199254740994 = 9007199254740987 := by
    simp only [Pagination.startPage, Pagination.add, Pagination.sub,
      Pagination.maxVisiblePages, s0, he, e3, e4, e5, e6]
    norm_num
  refine ⟨⟨Pagination_round_exact _ (by norm_num) (by norm_num), ?_, by norm_num,
    by norm_num⟩, ?_, by decide, ?_⟩
  · have h := Pagination_round_binade 9007199254740994 (by norm_num) (by norm_num)
    simpa using h
  · intro fuel hf
    have h := Pagination_loop_safe 9007199254740991 (by simp [Pagination.maxSafeInteger])
      5 fuel 9007199254740987 [] (by norm_num) (by decide) hf
    simp only [Pagination.pages, he, hs, h]
    simp [List.range_succ]
  · intro fuel
    simp only [Pagination.pages, Pagination_window_at_two_pow_53.1,
      Pagination_window_at_two_pow_53.2]
    exact Pagination_loop_never_ends fuel

/-- C21 (amended): for `1 <= current <= total <= 2^53 - 1` the loop ends
within five iterations and `pages` is the ascending run of consecutive
integers from `startPage` to `endPage`, with
`1 <= startPage <= endPage <= total` and exactly `min(5, total)` entries; when
moreover `3 <= current <= total - 2` it is `current-2 .. current+2`.  For
`total < 1` (and any `current`) the list is empty and the component returns
`null`. -/
theorem Pagination_window_shape (current total : Int) :
    (1 ≤ total → total ≤ Pagination.maxSafeInteger → 1 ≤ current → current ≤ total →
      1 ≤ Pagination.startPage current total
      ∧ Pagination.startPage current total ≤ Pagination.endPage current total
      ∧ Pagination.endPage current total ≤ total
      ∧ ∀ fuel, 5 ≤ fuel → ∃ ps, Pagination.pages fuel current total = some ps
          ∧ (ps.length : Int) = min 5 total
          ∧ (∀ i : Nat, i < ps.length →
              ps[i]? = some (Pagination.startPage current total + (i : Int)))
          ∧ ps.getLast? = some (Pagination.endPage current total)
          ∧ (3 ≤ current → current ≤ total - 2 →
              ps = [current - 2, current - 1, current, current + 1, current + 2]))
    ∧ (total < 1 →
        ∀ fuel, Pagination.pages fuel current total = some []
          ∧ Pagination.render fuel current total = some none) := by
  constructor
  · intro h1 h4 h2 h3
    obtain ⟨b1, b2, b3, b4, b5, b6⟩ := Pagination_window_bounds current total h1 h2 h3 h4
    refine ⟨b1, by omega, b4, ?_⟩
    intro fuel hf
    have hc : current ≤ Pagination.maxSafeInteger := by omega
    refine ⟨_, Pagination_pages_safe current total h2 hc h1 h4 fuel hf, ?_, ?_, ?_, ?_⟩
    · rw [Pagination_run_length]
      omega
    · intro i hi
      rw [Pagination_run_length] at hi
      exact Pagination_run_getElem _ _ i hi
    · rw [List.getLast?_eq_getElem?, Pagination_run_length,
        Pagination_run_getElem _ _ _ (by omega)]
      congr 1
      omega
    · intro h5 h6
      obtain ⟨hs, he⟩ := b6 h5 h6
      have hn : (current + 2 - (current - 2) + 1).toNat = 5 := by omega
      simp only [hs, he, hn]
      simp [List.range_succ]
      omega
  · intro h fuel
    exact Pagination_empty_of_total_lt_one current total h fuel

/-- Witness of C21 (amended): seven pages, current page four. -/
theorem Pagination_window_shape_witness :
    ∃ ps, Pagination.pages 5 4 7 = some ps ∧ ps = [4 - 2, 4 - 1, 4, 4 + 1, 4 + 2] := by
  obtain ⟨ps, hps, _, _, _, hrun⟩ :=
    ((Pagination_window_shape 4 7).1 (by decide) (by decide) (by decide) (by decide)).2.2.2
      5 (le_refl 5)
  exact ⟨ps, hps, hrun (by decide) (by decide)⟩

/-- A numbered button carries the class "active" exactly for the current
page. -/
theorem Pagination_pageButton_active (current page : Int) :
    (Pagination.pageButton current page).className = "pagination-btn active"
      ↔ page = current := by
  by_cases h : current = page
  · subst h
    simp only [Pagination.pageButton, beq_self_eq_true, if_true, iff_true]
    decide
  · have h2 : ¬ page = current := fun e => h e.symm
    simp only [Pagination.pageButton, beq_iff_eq, h, if_false, h2, iff_false]
    decide

/-- The number of returned buttons carrying the class "active" is the number
of occurrences of the current page in `pages`. -/
theorem Pagination_active_count (current total : Int) (ps : List Int) :
    (Pagination.controls current total ps).countP
        (fun b => b.className == "pagination-btn active")
      = ps.count current := by
  have hf : ((fun b : Pagination.Button => b.className == "pagination-btn active")
      ∘ Pagination.pageButton current) = (fun p => p == current) := by
    funext p
    by_cases hp : p = current
    · simp [hp, (Pagination_pageButton_active current current).2 rfl]
    · have hne := mt (Pagination_pageButton_active current p).1 hp
      simp [hp, hne]
  have hprev : ("pagination-btn" == "pagination-btn active") = false := by decide
  simp only [Pagination.controls, List.countP_append, List.countP_map, hf, List.countP_cons,
    List.countP_nil, hprev, List.count]
  simp

/-- What the component returns once the loop has ended with a non-empty
array. -/
theorem Pagination_render_of_pages (fuel : Nat) (current total : Int) (ps : List Int)
    (h : Pagination.pages fuel current total = some ps) (hne : ps ≠ []) :
    Pagination.render fuel current total
      = some (some (Pagination.controls current total ps)) := by
  simp [Pagination.render, h, hne]

/-- C22, as stated, fails beyond the safe integers: with
`current = total = 2^53` (a double, and `1 <= current <= total`) the loop
never ends, so the component never returns and shows no active button. -/
theorem Pagination_current_page_visible_counterexample :
    (Pagination.roundToDouble 9007199254740992 = 9007199254740992
      ∧ (1 : Int) ≤ 9007199254740992)
    ∧ (∀ fuel, Pagination.render fuel 9007199254740992 9007199254740992 = none) := by
  refine ⟨⟨Pagination_round_exact _ (by norm_num) (by norm_num), by norm_num⟩, ?_⟩
  intro fuel
  have hp : Pagination.pages fuel 9007199254740992 9007199254740992 = none := by
    simp only [Pagination.pages, Pagination_window_at_two_pow_53.1,
      Pagination_window_at_two_pow_53.2]
    exact Pagination_loop_never_ends fuel
  simp [Pagination.render, hp]

/-- C22 (amended): for `1 <= current <= total <= 2^53 - 1` the component
returns (within five loop iterations), `pages` contains `current` once, and
exactly one returned button carries the class "active".  For
`current > total`, whenever the component returns, `pages` does not contain
`current` and no returned button carries the class; it does return when
`total < 1` or `1 <= total < current <= 2^53 - 1`. -/
theorem Pagination_current_page_visible (current total : Int) :
    (1 ≤ total → total ≤ Pagination.maxSafeInteger → 1 ≤ current → current ≤ total →
      ∀ fuel, 5 ≤ fuel → ∃ ps, Pagination.pages fuel current total = some ps
        ∧ Pagination.render fuel current total
            = some (some (Pagination.controls current total ps))
        ∧ current ∈ ps
        ∧ ps.count current = 1
        ∧ (Pagination.controls current total ps).countP
            (fun b => b.className == "pagination-btn active") = 1)
    ∧ (total < current →
      (∀ fuel ps, Pagination.pages fuel current total = some ps →
        current ∉ ps
        ∧ (Pagination.controls current total ps).countP
            (fun b => b.className == "pagination-btn active") = 0
        ∧ ∀ b ∈ Pagination.controls current total ps,
            b.className ≠ "pagination-btn active")
      ∧ (total < 1 → ∀ fuel, Pagination.render fuel current total = some none)
      ∧ (1 ≤ total → current ≤ Pagination.maxSafeInteger →
          ∀ fuel, 5 ≤ fuel → ∃ ps, Pagination.pages fuel current total = some ps)) := by
  constructor
  · intro h1 h4 h2 h3 fuel hf
    obtain ⟨_, b2, b3, _, _, _⟩ := Pagination_window_bounds current total h1 h2 h3 h4
    have hc : current ≤ Pagination.maxSafeInteger := by omega
    have hps := Pagination_pages_safe current total h2 hc h1 h4 fuel hf
    have hmem := (Pagination_run_mem (Pagination.startPage current total)
      (Pagination.endPage current total) current).2 ⟨b2, b3⟩
    have hcount := List.count_eq_one_of_mem
      (Pagination_run_nodup (Pagination.startPage current total)
        (Pagination.endPage current total)) hmem
    refine ⟨_, hps, ?_, hmem, hcount, ?_⟩
    · exact Pagination_render_of_pages fuel current total _ hps (List.ne_nil_of_mem hmem)
    · rw [Pagination_active_count, hcount]
  · intro h
    refine ⟨?_, ?_, ?_⟩
    · intro fuel ps hps
      have hnot : current ∉ ps := by
        intro hmem
        have := Pagination_pages_bounds fuel current total ps hps current hmem
        omega
      have hzero : (Pagination.controls current total ps).countP
          (fun b => b.className == "pagination-btn active") = 0 := by
        rw [Pagination_active_count]
        exact List.count_eq_zero_of_not_mem hnot
      refine ⟨hnot, hzero, ?_⟩
      intro b hb hcls
      have := (List.countP_eq_zero.1 hzero) b hb
      simp [hcls] at this
    · intro h1 fuel
      exact (Pagination_empty_of_total_lt_one current total h1 fuel).2
    · intro h1 hc fuel hf
      have h4 : total ≤ Pagination.maxSafeInteger := by omega
      exact ⟨_, Pagination_pages_safe current total (by omega) hc h1 h4 fuel hf⟩

/-- Witness of C22 (amended): page 2 of 3 is listed once and is the one
active button. -/
theorem Pagination_current_page_visible_witness :
    ∃ ps, Pagination.pages 5 2 3 = some ps ∧ (2 : Int) ∈ ps
      ∧ (Pagination.controls 2 3 ps).countP
          (fun b => b.className == "pagination-btn active") = 1 := by
  obtain ⟨ps, hps, _, hmem, _, hactive⟩ :=
    (Pagination_current_page_visible 2 3).1 (by decide) (by decide) (by decide) (by decide)
      5 (le_refl 5)
  exact ⟨ps, hps, hmem, hactive⟩

/-- C23 (no out-of-range request): for doubles `1 <= current <= total`,
whenever the component returns buttons they are Previous, the numbered
buttons and Next; Previous is disabled exactly when `current = 1`, Next
exactly when `current = total`; every numbered button is enabled and emits
its own page, which lies in `[1, total]`; and every enabled button emits a
page in `[1, total]`.  For `total <= 2^53 - 1` the component does return,
within five loop iterations, Previous emits `current - 1` and Next emits
`current + 1`. -/
theorem Pagination_requests_in_range (current total : Int)
    (hc : Pagination.roundToDouble current = current)
    (ht : Pagination.roundToDouble total = total)
    (h1 : 1 ≤ total) (h2 : 1 ≤ current) (h3 : current ≤ total) :
    (∀ fuel bs, Pagination.render fuel current total = some (some bs) →
      ∃ ps, Pagination.pages fuel current total = some ps
        ∧ bs = [{ text := "Previous", className := "pagination-btn",
                  disabled := current == 1, onClick := Pagination.sub current 1 }]
              ++ ps.map (Pagination.pageButton current)
              ++ [{ text := "Next", className := "pagination-btn",
                    disabled := current == total, onClick := Pagination.add current 1 }]
        ∧ (∀ p ∈ ps, (Pagination.pageButton current p).disabled = false
            ∧ (Pagination.pageButton current p).onClick = p ∧ 1 ≤ p ∧ p ≤ total)
        ∧ (∀ b ∈ bs, b.disabled = false → 1 ≤ b.onClick ∧ b.onClick ≤ total))
    ∧ ((current == 1) = true ↔ current = 1)
    ∧ ((current == total) = true ↔ current = total)
    ∧ (total ≤ Pagination.maxSafeInteger →
        Pagination.sub current 1 = current - 1
        ∧ Pagination.add current 1 = current + 1
        ∧ ∀ fuel, 5 ≤ fuel → ∃ ps, ps ≠ []
            ∧ Pagination.render fuel current total
                = some (some (Pagination.controls current total ps))) := by
  refine ⟨?_, beq_iff_eq, beq_iff_eq, ?_⟩
  · intro fuel bs hbs
    cases hps : Pagination.pages fuel current total with
    | none => simp [Pagination.render, hps] at hbs
    | some ps =>
      have hpages := Pagination_pages_bounds fuel current total ps hps
      by_cases hempty : ps = []
      · simp [Pagination.render, hps, hempty] at hbs
      · have hbs2 : bs = Pagination.controls current total ps := by
          have := Pagination_render_of_pages fuel current total ps hps hempty
          rw [this] at hbs
          simpa using hbs.symm
        refine ⟨ps, rfl, hbs2, ?_, ?_⟩
        · intro p hp
          exact ⟨rfl, rfl, hpages p hp⟩
        · intro b hb hen
          rw [hbs2] at hb
          simp only [Pagination.controls, List.mem_append, List.mem_singleton,
            List.mem_map] at hb
          rcases hb with (rfl | ⟨p, hp, rfl⟩) | rfl
          · have hne : current ≠ 1 := by simpa using hen
            have hlow := Pagination_round_pos (current - 1) (by omega)
            have hup := Pagination_round_le (current - 1) current (by omega) (by omega) hc
            simp only [Pagination.sub]
            omega
          · exact hpages p hp
          · have hne : current ≠ total := by simpa using hen
            have hlow := Pagination_round_pos (current + 1) (by omega)
            have hup := Pagination_round_le (current + 1) total (by omega) (by omega) ht
            simp only [Pagination.add]
            omega
  · intro h4
    have h4b := h4
    simp only [Pagination.maxSafeInteger] at h4b
    refine ⟨Pagination_round_exact _ (by omega) (by omega),
      Pagination_round_exact _ (by omega) (by omega), ?_⟩
    intro fuel hf
    obtain ⟨_, b2, b3, _, _, _⟩ := Pagination_window_bounds current total h1 h2 h3 h4
    have hcs : current ≤ Pagination.maxSafeInteger := by
      simp only [Pagination.maxSafeInteger]
      omega
    have hps := Pagination_pages_safe current total h2 hcs h1 h4 fuel hf
    have hmem := (Pagination_run_mem (Pagination.startPage current total)
      (Pagination.endPage current total) current).2 ⟨b2, b3⟩
    exact ⟨_, List.ne_nil_of_mem hmem,
      Pagination_render_of_pages fuel current total _ hps (List.ne_nil_of_mem hmem)⟩

/-- Witness of C23: on page 2 of 3 the component returns, Previous emits 1
and Next emits 3. -/
theorem Pagination_requests_in_range_witness :
    Pagination.sub 2 1 = 2 - 1 ∧ Pagination.add 2 1 = 2 + 1
      ∧ ∃ ps, ps ≠ [] ∧ Pagination.render 5 2 3 = some (some (Pagination.controls 2 3 ps)) :=
  have h := (Pagination_requests_in_range 2 3
    (Pagination_round_exact 2 (by decide) (by decide))
    (Pagination_round_exact 3 (by decide) (by decide))
    (by decide) (by decide) (by decide)).2.2.2 (by decide)
  ⟨h.1, h.2.1, h.2.2 5 (le_refl 5)⟩

/-! ## Comment -/

/-- C24 (comment moderation actions): `Comment` renders the Edit and Delete
actions if and only if `showActions` is true, a user is logged in, and that
user is the author of the comment or has role ADMIN; otherwise it renders
neither.  An anonymous visitor, and a logged-in user who is neither the
author nor an ADMIN, see no actions whatever `showActions` is. -/
theorem Comment_actions_iff (user : Option User) (comment : Comment.CommentData)
    (showActions : Bool) :
    (Comment.actions user comment showActions
        = [NavItem.button "Edit", NavItem.button "Delete"]
      ↔ (showActions = true
          ∧ ∃ u, user = some u ∧ (u.id = comment.authorId ∨ u.role = "ADMIN")))
    ∧ (Comment.actions user comment showActions ≠ [NavItem.button "Edit", NavItem.button "Delete"]
        → Comment.actions user comment showActions = [])
    ∧ Comment.actions none comment showActions = []
    ∧ (∀ u : User, u.id ≠ comment.authorId → u.role ≠ "ADMIN" →
        Comment.actions (some u) comment showActions = []) := by
  refine ⟨?_, ?_, ?_, ?_⟩
  · cases user with
    | none => simp [Comment.actions, Comment.canModify]
    | some u =>
      by_cases h1 : u.id = comment.authorId <;> by_cases h2 : u.role = "ADMIN" <;>
        cases showActions <;> simp [Comment.actions, Comment.canModify, h1, h2]
  · intro h
    unfold Comment.actions at h ⊢
    split_ifs at h ⊢ with hc
    · exact absurd rfl h
    · rfl
  · simp [Comment.actions, Comment.canModify]
  · intro u h1 h2
    simp [Comment.actions, Comment.canModify, h1, h2]

/-- Witness of C24: the author sees the actions when `showActions` is true;
another READER does not. -/
theorem Comment_actions_iff_witness :
    Comment.actions (some ⟨"u1", "Rita", "rita@example.com", "READER"⟩)
        ⟨"c1", "u1", "Nice post", true⟩ true
      = [NavItem.button "Edit", NavItem.button "Delete"]
    ∧ Comment.actions (some ⟨"u2", "Omar", "omar@example.com", "READER"⟩)
        ⟨"c1", "u1", "Nice post", true⟩ true = [] :=
  ⟨(Comment_actions_iff (some ⟨"u1", "Rita", "rita@example.com", "READER"⟩)
      ⟨"c1", "u1", "Nice post", true⟩ true).1.2
      ⟨rfl, ⟨"u1", "Rita", "rita@example.com", "READER"⟩, rfl, Or.inl rfl⟩,
   (Comment_actions_iff (some ⟨"u2", "Omar", "omar@example.com", "READER"⟩)
      ⟨"c1", "u1", "Nice post", true⟩ true).2.2.2
      ⟨"u2", "Omar", "omar@example.com", "READER"⟩ (by decide) (by decide)⟩

/-! ## EditPost: loading the post -/

/-- Whatever happens, `fetchPost` ends with `isLoading = false`. -/
theorem EditPost_fetchPost_isLoading (user : Option User) (id : String)
    (response : useApi.Outcome EditPost.PostResponse) (s : EditPost.PageState) :
    (EditPost.run s (EditPost.fetchPost user id response)).isLoading = false := by
  simp [EditPost.run, EditPost.fetchPost, List.foldl_append, EditPost.Effect.apply]

/-- The effects of `fetchPost` for a fetched post and a user who is its
author or an ADMIN. -/
theorem EditPost_fetchPost_authorized (u : User) (id : String) (post : EditPost.Post)
    (h : post.authorId = u.id ∨ u.role = "ADMIN") :
    EditPost.fetchPost (some u) id (useApi.Outcome.returned ⟨some post⟩) =
      [EditPost.Effect.makeRequest "get" ("/posts/" ++ id),
        EditPost.Effect.setFormData (EditPost.formOf post)]
      ++ (match post.image with
          | none => []
          | some image =>
            if truthyStr image then
              [EditPost.Effect.setCurrentImageUrl (EditPost.imageUrl image),
                EditPost.Effect.setImagePreview (EditPost.imageUrl image)]
            else [])
      ++ [EditPost.Effect.setIsLoading false] := by
  rcases h with h | h <;> simp [EditPost.fetchPost, h]

/-- The effects of `fetchPost` for a fetched post and a user who is neither
its author nor an ADMIN. -/
theorem EditPost_fetchPost_denied (u : User) (id : String) (post : EditPost.Post)
    (h : ¬ (post.authorId = u.id ∨ u.role = "ADMIN")) :
    EditPost.fetchPost (some u) id (useApi.Outcome.returned ⟨some post⟩) =
      [EditPost.Effect.makeRequest "get" ("/posts/" ++ id),
        EditPost.Effect.navigate "/dashboard", EditPost.Effect.setIsLoading false] := by
  have h1 : ¬ post.authorId = u.id := fun e => h (Or.inl e)
  have h2 : ¬ u.role = "ADMIN" := fun e => h (Or.inr e)
  simp [EditPost.fetchPost, h1, h2]


/-- The form object built from a fetched post, field by field. -/
theorem EditPost_formOf_fields (post : EditPost.Post) :
    (EditPost.formOf post).title = post.title
    ∧ (EditPost.formOf post).content = post.content
    ∧ (EditPost.formOf post).published = post.published
    ∧ (post.excerpt = none → (EditPost.formOf post).excerpt = "")
    ∧ (∀ e, post.excerpt = some e → (EditPost.formOf post).excerpt = e)
    ∧ (post.tags = none → (EditPost.formOf post).tags = "")
    ∧ (∀ ts, post.tags = some ts →
        (EditPost.formOf post).tags = String.intercalate ", " ts) := by
  refine ⟨rfl, rfl, rfl, ?_, ?_, ?_, ?_⟩
  · intro h
    simp [EditPost.formOf, orElse, h]
  · intro e h
    by_cases he : e = "" <;> simp [EditPost.formOf, orElse, h, truthyStr, he]
  · intro h
    simp [EditPost.formOf, orElse, h]
  · intro ts h
    by_cases he : String.intercalate ", " ts = "" <;>
      simp [EditPost.formOf, orElse, h, truthyStr, he]

/-- C25 (role-based access in `EditPost`): for a successfully fetched post,
`fetchPost` populates the form if and only if the current user is the author
of the post or has role ADMIN.  The form then holds the title, content and
published flag of the post, its excerpt (or "" when absent) and its tags
joined by ", " (or "" when absent), and a non-empty image sets the image URL
and the preview to the image itself when it starts with "http", else to
"http://localhost:5000" followed by it.  Otherwise no `setFormData` happens,
the user is navigated to /dashboard and form data, image URL and preview stay
as they were (at their initial empty values from the initial state).  When
the response carries no post, the user is alerted and navigated to
/dashboard.  In every case `isLoading` ends false; the effect hook runs
`fetchPost` for every non-empty route parameter `id`. -/
theorem EditPost_fetchPost_role_access (u : User) (id : String) (post : EditPost.Post)
    (s : EditPost.PageState) :
    ((∃ fd, EditPost.Effect.setFormData fd
          ∈ EditPost.fetchPost (some u) id (useApi.Outcome.returned ⟨some post⟩))
      ↔ (post.authorId = u.id ∨ u.role = "ADMIN"))
    ∧ ((post.authorId = u.id ∨ u.role = "ADMIN") →
        (EditPost.run s (EditPost.fetchPost (some u) id
            (useApi.Outcome.returned ⟨some post⟩))).formData.title = post.title
        ∧ (EditPost.run s (EditPost.fetchPost (some u) id
            (useApi.Outcome.returned ⟨some post⟩))).formData.content = post.content
        ∧ (EditPost.run s (EditPost.fetchPost (some u) id
            (useApi.Outcome.returned ⟨some post⟩))).formData.published = post.published
        ∧ (post.excerpt = none →
            (EditPost.run s (EditPost.fetchPost (some u) id
              (useApi.Outcome.returned ⟨some post⟩))).formData.excerpt = "")
        ∧ (∀ e, post.excerpt = some e →
            (EditPost.run s (EditPost.fetchPost (some u) id
              (useApi.Outcome.returned ⟨some post⟩))).formData.excerpt = e)
        ∧ (post.tags = none →
            (EditPost.run s (EditPost.fetchPost (some u) id
              (useApi.Outcome.returned ⟨some post⟩))).formData.tags = "")
        ∧ (∀ ts, post.tags = some ts →
            (EditPost.run s (EditPost.fetchPost (some u) id
              (useApi.Outcome.returned ⟨some post⟩))).formData.tags
              = String.intercalate ", " ts)
        ∧ (EditPost.run s (EditPost.fetchPost (some u) id
            (useApi.Outcome.returned ⟨some post⟩))).location = s.location
        ∧ (∀ image, post.image = some image → image ≠ "" →
            (EditPost.run s (EditPost.fetchPost (some u) id
                (useApi.Outcome.returned ⟨some post⟩))).currentImageUrl
              = some (if startsWith image "http" = true then image
                      else "http://localhost:5000" ++ image)
            ∧ (EditPost.run s (EditPost.fetchPost (some u) id
                (useApi.Outcome.returned ⟨some post⟩))).imagePreview
              = some (if startsWith image "http" = true then image
                      else "http://localhost:5000" ++ image))
        ∧ ((post.image = none ∨ post.image = some "") →
            (EditPost.run s (EditPost.fetchPost (some u) id
                (useApi.Outcome.returned ⟨some post⟩))).currentImageUrl = s.currentImageUrl
            ∧ (EditPost.run s (EditPost.fetchPost (some u) id
                (useApi.Outcome.returned ⟨some post⟩))).imagePreview = s.imagePreview))
    ∧ (¬ (post.authorId = u.id ∨ u.role = "ADMIN") →
        EditPost.fetchPost (some u) id (useApi.Outcome.returned ⟨some post⟩)
          = [EditPost.Effect.makeRequest "get" ("/posts/" ++ id),
              EditPost.Effect.navigate "/dashboard", EditPost.Effect.setIsLoading false]
        ∧ EditPost.run s (EditPost.fetchPost (some u) id (useApi.Outcome.returned ⟨some post⟩))
          = { s with location := "/dashboard", isLoading := false }
        ∧ EditPost.run (EditPost.PageState.initial s.location)
            (EditPost.fetchPost (some u) id (useApi.Outcome.returned ⟨some post⟩))
          = { formData := ⟨"", "", "", "", false⟩, currentImageUrl := none,
              imagePreview := none, isLoading := false, location := "/dashboard" })
    ∧ (EditPost.fetchPost (some u) id (useApi.Outcome.returned ⟨none⟩)
          = [EditPost.Effect.makeRequest "get" ("/posts/" ++ id), EditPost.Effect.consoleError,
              EditPost.Effect.alert "Unable to load post details. Redirecting to dashboard.",
              EditPost.Effect.navigate "/dashboard", EditPost.Effect.setIsLoading false]
        ∧ EditPost.run s (EditPost.fetchPost (some u) id (useApi.Outcome.returned ⟨none⟩))
          = { s with location := "/dashboard", isLoading := false })
    ∧ (∀ (user : Option User) (response : useApi.Outcome EditPost.PostResponse),
        (EditPost.run s (EditPost.fetchPost user id response)).isLoading = false
        ∧ (id ≠ "" →
            EditPost.loadEffect user id response = EditPost.fetchPost user id response)) := by
  have hform : (post.authorId = u.id ∨ u.role = "ADMIN") →
      (EditPost.run s (EditPost.fetchPost (some u) id
        (useApi.Outcome.returned ⟨some post⟩))).formData = EditPost.formOf post := by
    intro h
    rw [EditPost_fetchPost_authorized u id post h]
    cases hi : post.image with
    | none => simp [EditPost.run, EditPost.Effect.apply]
    | some image =>
      by_cases ht : truthyStr image = true <;>
        simp [EditPost.run, EditPost.Effect.apply, ht]
  obtain ⟨f1, f2, f3, f4, f5, f6, f7⟩ := EditPost_formOf_fields post
  refine ⟨?_, ?_, ?_, ?_, ?_⟩
  · by_cases h : post.authorId = u.id ∨ u.role = "ADMIN"
    · rw [EditPost_fetchPost_authorized u id post h]
      simp [h]
    · rw [EditPost_fetchPost_denied u id post h]
      simp [h]
  · intro h
    rw [hform h]
    refine ⟨f1, f2, f3, f4, f5, f6, f7, ?_, ?_, ?_⟩
    · rw [EditPost_fetchPost_authorized u id post h]
      cases hi : post.image with
      | none => simp [EditPost.run, EditPost.Effect.apply]
      | some image =>
        by_cases ht : truthyStr image = true <;>
          simp [EditPost.run, EditPost.Effect.apply, ht]
    · intro image hi hne
      have ht : truthyStr image = true := by simp [truthyStr, hne]
      rw [EditPost_fetchPost_authorized u id post h]
      simp [hi, ht, EditPost.run, EditPost.Effect.apply, EditPost.imageUrl]
    · intro hi
      rw [EditPost_fetchPost_authorized u id post h]
      rcases hi with hi | hi <;>
        simp [hi, truthyStr, EditPost.run, EditPost.Effect.apply]
  · intro h
    rw [EditPost_fetchPost_denied u id post h]
    exact ⟨rfl, rfl, rfl⟩
  · exact ⟨rfl, rfl⟩
  · intro user response
    refine ⟨EditPost_fetchPost_isLoading user id response s, ?_⟩
    intro hid
    simp [EditPost.loadEffect, truthyStr, hid]

/-- Witness of C25: the author gets the form filled in with the data of the
post; another AUTHOR is sent to /dashboard with the form untouched. -/
theorem EditPost_fetchPost_role_access_witness :
    (EditPost.run (EditPost.PageState.initial "/edit-post/p1")
        (EditPost.fetchPost (some ⟨"u1", "Rita", "rita@example.com", "AUTHOR"⟩) "p1"
          (useApi.Outcome.returned
            ⟨some ⟨"u1", "Hello", "First post, welcome", none, some ["a", "b"], true,
              some "/uploads/p1.png"⟩⟩))).formData.title = "Hello"
    ∧ (EditPost.run (EditPost.PageState.initial "/edit-post/p1")
        (EditPost.fetchPost (some ⟨"u1", "Rita", "rita@example.com", "AUTHOR"⟩) "p1"
          (useApi.Outcome.returned
            ⟨some ⟨"u1", "Hello", "First post, welcome", none, some ["a", "b"], true,
              some "/uploads/p1.png"⟩⟩))).formData.tags = String.intercalate ", " ["a", "b"]
    ∧ EditPost.run (EditPost.PageState.initial "/edit-post/p1")
        (EditPost.fetchPost (some ⟨"u2", "Omar", "omar@example.com", "AUTHOR"⟩) "p1"
          (useApi.Outcome.returned
            ⟨some ⟨"u1", "Hello", "First post, welcome", none, some ["a", "b"], true,
              some "/uploads/p1.png"⟩⟩))
      = { formData := ⟨"", "", "", "", false⟩, currentImageUrl := none,
          imagePreview := none, isLoading := false, location := "/dashboard" } :=
  ⟨((EditPost_fetchPost_role_access ⟨"u1", "Rita", "rita@example.com", "AUTHOR"⟩ "p1"
      ⟨"u1", "Hello", "First post, welcome", none, some ["a", "b"], true,
        some "/uploads/p1.png"⟩
      (EditPost.PageState.initial "/edit-post/p1")).2.1 (Or.inl rfl)).1,
   ((EditPost_fetchPost_role_access ⟨"u1", "Rita", "rita@example.com", "AUTHOR"⟩ "p1"
      ⟨"u1", "Hello", "First post, welcome", none, some ["a", "b"], true,
        some "/uploads/p1.png"⟩
      (EditPost.PageState.initial "/edit-post/p1")).2.1 (Or.inl rfl)).2.2.2.2.2.2.1
      ["a", "b"] rfl,
   ((EditPost_fetchPost_role_access ⟨"u2", "Omar", "omar@example.com", "AUTHOR"⟩ "p1"
      ⟨"u1", "Hello", "First post, welcome", none, some ["a", "b"], true,
        some "/uploads/p1.png"⟩
      (EditPost.PageState.initial "/edit-post/p1")).2.2.1 (by decide)).2.2⟩

/-- The whole page state the author ends with on a concrete post: fields,
joined tags and the image URL completed with the local host. -/
theorem EditPost_fetchPost_author_example :
    EditPost.run (EditPost.PageState.initial "/edit-post/p1")
        (EditPost.fetchPost (some ⟨"u1", "Rita", "rita@example.com", "AUTHOR"⟩) "p1"
          (useApi.Outcome.returned
            ⟨some ⟨"u1", "Hello", "First post, welcome", none, some ["a", "b"], true,
              some "/uploads/p1.png"⟩⟩))
      = { formData := ⟨"Hello", "First post, welcome", "", "a, b", true⟩,
          currentImageUrl := some "http://localhost:5000/uploads/p1.png",
          imagePreview := some "http://localhost:5000/uploads/p1.png",
          isLoading := false, location := "/edit-post/p1" } := by
  decide

end BigBlog
